import Mathlib

/-!
Shallow embedding of the virtual TPM TIS device model (`devices/src/tpm_tis.rs`)
and of the backend bridge (`vtpm/src/tpm_backend.rs`) of this repository,
together with theorems settling the specification claims about them.

Modelling conventions:
  * Machine integers (`u8`, `u16`, `u32`, `usize`) are `Nat`; wherever the Rust
    code can overflow or wrap we apply the release-build wrapping semantics
    explicitly (`% 256`, `% 65536`, `% 2^32`, shift-amount masking).
    Rust's bitwise complement `!x` at width `w` is written `mask ^^^ x` with
    the appropriate all-ones mask (and a `&&& 0xff` cast where the source
    casts a `u32` complement down to `u8`).
  * `Vec` indexing is partial in Rust (a panic aborts the device): every
    indexing step is modelled in the `Option` monad, `none` meaning a panic,
    either from a checked-arithmetic abort in debug builds or from the
    out-of-bounds index the wrapped value produces in release builds.
  * The interrupt line, the character devices and the emulator process are
    outside the embedded state.  I/O results that flow back into the modelled
    state (the return code of `deliver_request`, the `sendmsg` return value,
    the bytes written by `recvfrom`) are passed in as explicit oracle
    parameters, so theorems quantify over every possible environment
    behaviour.
-/

namespace TpmTis

/- Constants from `devices/src/tpm_tis.rs`. -/

def TPM_TIS_NUM_LOCALITIES : Nat := 5
def TPM_TIS_BUFFER_MAX : Nat := 4096
def TPM_TIS_NO_LOCALITY : Nat := 255
def TPM_TIS_ACCESS_TPM_REG_VALID_STS : Nat := 1 <<< 7
def TPM_TIS_STS_TPM_FAMILY2_0 : Nat := 1 <<< 26
def TPM_TIS_IFACE_ID_SUPPORTED_FLAGS2_0 : Nat := (1 <<< 8) ||| (1 <<< 13)
def TPM_TIS_INT_POLARITY_LOW_LEVEL : Nat := 1 <<< 3
def TPM_TIS_ACCESS_SEIZE : Nat := 1 <<< 3
def TPM_TIS_ACCESS_PENDING_REQUEST : Nat := 1 <<< 2
def TPM_TIS_CAPABILITIES_SUPPORTED2_0 : Nat :=
  (1 <<< 4) ||| (3 <<< 9) ||| (3 <<< 28) ||| ((1 <<< 2) ||| (1 <<< 0) ||| (1 <<< 1) ||| (1 <<< 7))
def TPM_TIS_STS_DATA_AVAILABLE : Nat := 1 <<< 4
def TPM_TIS_NO_DATA_BYTE : Nat := 0xff
def TPM_TIS_TPM_DID : Nat := 0x0001
def TPM_TIS_TPM_VID : Nat := 0x1014
def TPM_TIS_TPM_RID : Nat := 0x0001
def TPM_TIS_LOCALITY_SHIFT : Nat := 12
def TPM_TIS_ACCESS_REQUEST_USE : Nat := 1 <<< 1
def TPM_TIS_ACCESS_ACTIVE_LOCALITY : Nat := 1 <<< 5
def TPM_TIS_ACCESS_BEEN_SEIZED : Nat := 1 <<< 4
def TPM_TIS_INT_ENABLED : Nat := 1 <<< 31
def TPM_TIS_INT_POLARITY_MASK : Nat := 3 <<< 3
def TPM_TIS_INTERRUPTS_SUPPORTED : Nat := (1 <<< 2) ||| (1 <<< 0) ||| (1 <<< 1) ||| (1 <<< 7)
def TPM_TIS_STS_VALID : Nat := 1 <<< 7
def TPM_TIS_INT_STS_VALID : Nat := 1 <<< 1
def TPM_TIS_STS_SELFTEST_DONE : Nat := 1 <<< 2
def TPM_TIS_STS_TPM_FAMILY_MASK : Nat := 3 <<< 26
def TPM_TIS_STS_COMMAND_READY : Nat := 1 <<< 6
def TPM_TIS_INT_DATA_AVAILABLE : Nat := 1 <<< 0
def TPM_TIS_INT_LOCALITY_CHANGED : Nat := 1 <<< 2
def TPM_TIS_INT_COMMAND_READY : Nat := 1 <<< 7
def TPM_TIS_STS_COMMAND_CANCEL : Nat := 1 <<< 24
def TPM_TIS_STS_RESET_ESTABLISHMENT_BIT : Nat := 1 <<< 25
def TPM_TIS_STS_TPM_GO : Nat := 1 <<< 5
def TPM_TIS_STS_RESPONSE_RETRY : Nat := 1 <<< 1
def TPM_TIS_STS_EXPECT : Nat := 1 <<< 3
def TPM_TIS_IFACE_ID_INT_SEL_LOCK : Nat := 1 <<< 19

def TPM_TIS_REG_ACCESS : Nat := 0x00
def TPM_TIS_REG_INT_ENABLE : Nat := 0x08
def TPM_TIS_REG_INT_VECTOR : Nat := 0x0c
def TPM_TIS_REG_INT_STATUS : Nat := 0x10
def TPM_TIS_REG_INTF_CAPABILITY : Nat := 0x14
def TPM_TIS_REG_STS : Nat := 0x18
def TPM_TIS_REG_DATA_FIFO : Nat := 0x24
def TPM_TIS_REG_INTERFACE_ID : Nat := 0x30
def TPM_TIS_REG_DATA_XFIFO : Nat := 0x80
def TPM_TIS_REG_DATA_XFIFO_END : Nat := 0xbc
def TPM_TIS_REG_DID_VID : Nat := 0xf00
def TPM_TIS_REG_RID : Nat := 0xf04

/-- Helper `tpm_tis_locality_from_addr`: locality selector is bits [14:12]. -/
def tpm_tis_locality_from_addr (addr : Nat) : Nat :=
  (addr >>> TPM_TIS_LOCALITY_SHIFT) &&& 0x7

/-- Per-locality TIS state machine states (`TPMTISState`). -/
inductive TPMTISState where
  | TpmTisStateIdle
  | TpmTisStateReady
  | TpmTisStateCompletion
  | TpmTisStateExecution
  | TpmTisStateReception
deriving DecidableEq, Repr

/-- One locality record (`TPMLocality`). -/
structure TPMLocality where
  state : TPMTISState
  access : Nat
  sts : Nat
  iface_id : Nat
  inte : Nat
  ints : Nat
deriving DecidableEq, Repr

/-- Backend command descriptor (`TPMBackendCmd` in `vtpm/src/tpm_backend.rs`). -/
structure TPMBackendCmd where
  locty : Nat
  input : List Nat
  input_len : Nat
  output : List Nat
  output_len : Int
  selftest_done : Bool
deriving DecidableEq, Repr

/-- Guest-visible device state of `TPMIsa` (the interrupt line, the backend
driver object and the fixed TPM version are external to the embedding; the
result of backend calls enters through oracle parameters). -/
structure TPMIsa where
  buffer : List Nat
  rw_offset : Nat
  active_locty : Nat
  aborting_locty : Nat
  next_locty : Nat
  cmd : Option TPMBackendCmd
  locs : List TPMLocality
  be_buffer_size : Nat
  irq_num : Nat
deriving DecidableEq, Repr

/-- Rust `self.locs[i]` read: panics (`none`) when out of bounds. -/
def locsGet (s : TPMIsa) (i : Nat) : Option TPMLocality := s.locs[i]?

/-- Rust `self.locs[i] = ...` style in-place update of one locality. -/
def locsSet (s : TPMIsa) (i : Nat) (f : TPMLocality → TPMLocality) : Option TPMIsa :=
  match s.locs[i]? with
  | none => none
  | some l => some { s with locs := s.locs.set i (f l) }

/-- A `for l in 0..n`-style loop applying the same update to each listed
locality in order (used for the seize-cancel, self-test, and interface-id
loops of the source). -/
def forLocsUpd (f : TPMLocality → TPMLocality) : TPMIsa → List Nat → Option TPMIsa
  | s, [] => some s
  | s, l :: ls => do
    let s' ← locsSet s l f
    forLocsUpd f s' ls

/-- `tpm_tis_sts_set`: clear the STS register except `SELFTEST_DONE` and the
TPM-family bits, then OR in the new flags. -/
def tpm_tis_sts_set (s : TPMIsa) (locality flags : Nat) : Option TPMIsa :=
  locsSet s locality (fun l =>
    { l with sts :=
        (l.sts &&& (TPM_TIS_STS_SELFTEST_DONE ||| TPM_TIS_STS_TPM_FAMILY_MASK)) ||| flags })

/-- `tpm_tis_raise_irq`: no-op for an invalid locality; otherwise accumulate
the mask into `ints` when enabled (the platform line itself is external). -/
def tpm_tis_raise_irq (s : TPMIsa) (locty irqmask : Nat) : Option TPMIsa :=
  if ¬ locty < 5 then some s
  else do
    let l ← locsGet s locty
    if l.inte &&& TPM_TIS_INT_ENABLED ≠ 0 ∧ l.inte &&& irqmask ≠ 0 then
      locsSet s locty (fun l => { l with ints := l.ints ||| irqmask })
    else some s

/-- Big-endian 4-byte read at offset `i` of a byte list; `none` models the
panicking slice `buf[i..i+4]` when the buffer is too short. -/
def get4BE (l : List Nat) (i : Nat) : Option Nat := do
  let a ← l[i]?
  let b ← l[i + 1]?
  let c ← l[i + 2]?
  let d ← l[i + 3]?
  some ((a <<< 24) ||| (b <<< 16) ||| (c <<< 8) ||| d)

/-- `tpm_cmd_get_size`: the big-endian `u32` at buffer offset 2. -/
def tpm_cmd_get_size (s : TPMIsa) : Option Nat := get4BE s.buffer 2

/-- `tpm_tis_check_request_use_except` body: scan the listed localities,
skipping `locty`, for a pending `REQUEST_USE`. -/
def checkRequestUseGo (s : TPMIsa) (locty : Nat) : List Nat → Option Nat
  | [] => some 0
  | l :: ls =>
    if l = locty then checkRequestUseGo s locty ls
    else do
      let loc ← locsGet s l
      if loc.access &&& TPM_TIS_ACCESS_REQUEST_USE ≠ 0 then some 1
      else checkRequestUseGo s locty ls

/-- `tpm_tis_check_request_use_except` (the source loop runs over
`0..TPM_TIS_NUM_LOCALITIES-1`, i.e. localities 0..3). -/
def tpm_tis_check_request_use_except (s : TPMIsa) (locty : Nat) : Option Nat :=
  checkRequestUseGo s locty (List.range (TPM_TIS_NUM_LOCALITIES - 1))

/-- `tpm_tis_new_active_locality`. -/
def tpm_tis_new_active_locality (s : TPMIsa) (new_active_locality : Nat) : Option TPMIsa := do
  let change := s.active_locty ≠ new_active_locality
  let s ←
    if change ∧ s.active_locty < 5 then do
      let is_seize ←
        if new_active_locality < 5 then do
          let l ← locsGet s new_active_locality
          some (decide (l.access &&& TPM_TIS_ACCESS_SEIZE ≠ 0))
        else some false
      let mask :=
        if is_seize then (0xff : Nat) ^^^ TPM_TIS_ACCESS_ACTIVE_LOCALITY
        else (0xff : Nat) ^^^ (TPM_TIS_ACCESS_ACTIVE_LOCALITY ||| TPM_TIS_ACCESS_REQUEST_USE)
      let s ← locsSet s s.active_locty (fun l => { l with access := l.access &&& mask })
      if is_seize then
        locsSet s s.active_locty
          (fun l => { l with access := l.access ||| TPM_TIS_ACCESS_BEEN_SEIZED })
      else some s
    else some s
  let s := { s with active_locty := new_active_locality }
  let s ←
    if new_active_locality < 5 then
      locsSet s new_active_locality (fun l =>
        { l with access :=
            (l.access ||| TPM_TIS_ACCESS_ACTIVE_LOCALITY) &&&
              ((0xff : Nat) ^^^ (TPM_TIS_ACCESS_REQUEST_USE ||| TPM_TIS_ACCESS_SEIZE)) })
    else some s
  if change then tpm_tis_raise_irq s s.active_locty TPM_TIS_INT_LOCALITY_CHANGED else some s

/-- `tpm_tis_abort` (the backend `cancel_cmd` touches no embedded state). -/
def tpm_tis_abort (s : TPMIsa) : Option TPMIsa := do
  let s := { s with rw_offset := 0 }
  let s ←
    if s.aborting_locty = s.next_locty then do
      let s ← locsSet s s.aborting_locty
        (fun l => { l with state := TPMTISState.TpmTisStateReady })
      let s ← tpm_tis_sts_set s s.aborting_locty TPM_TIS_STS_COMMAND_READY
      tpm_tis_raise_irq s s.aborting_locty TPM_TIS_INT_COMMAND_READY
    else some s
  let s ← tpm_tis_new_active_locality s s.next_locty
  some { s with next_locty := TPM_TIS_NO_LOCALITY, aborting_locty := TPM_TIS_NO_LOCALITY }

/-- Scan of `tpm_tis_prep_abort` for a locality in `Execution` state. -/
def anyExecution (s : TPMIsa) : List Nat → Option Bool
  | [] => some false
  | l :: ls => do
    let loc ← locsGet s l
    if loc.state = TPMTISState.TpmTisStateExecution then some true
    else anyExecution s ls

/-- `tpm_tis_prep_abort` (the source scans localities
`0..TPM_TIS_NUM_LOCALITIES-1`, i.e. 0..3, for an executing command; the
backend cancellation request itself is external). -/
def tpm_tis_prep_abort (s : TPMIsa) (locty newlocty : Nat) : Option TPMIsa := do
  if ¬ newlocty < 5 then none
  else do
    let s := { s with aborting_locty := locty, next_locty := newlocty }
    let busy ← anyExecution s (List.range (TPM_TIS_NUM_LOCALITIES - 1))
    if busy then some s
    else tpm_tis_abort s

/-- `tpm_backend_deliver_request` as seen from the TIS engine.  `deliverRet`
is the oracle value returned by the backend bridge's `deliver_request`; the
backend mutates only its own clone of the descriptor, so no other backend
output flows into the TIS state. -/
def tpm_backend_deliver_request (deliverRet : Int) (s : TPMIsa) : Option TPMIsa := do
  match s.cmd with
  | none => some s
  | some cmd =>
    if deliverRet = 0 then do
      let locty := cmd.locty
      if ¬ locty < 5 then none
      else do
        let s ←
          if cmd.selftest_done then
            forLocsUpd (fun l => { l with sts := l.sts ||| (1 <<< 2) }) s
              (List.range (TPM_TIS_NUM_LOCALITIES - 1))
          else some s
        let s ← tpm_tis_sts_set s locty (TPM_TIS_STS_VALID ||| TPM_TIS_STS_DATA_AVAILABLE)
        let s ← locsSet s locty (fun l => { l with state := TPMTISState.TpmTisStateCompletion })
        let s ← if s.next_locty < 5 then tpm_tis_abort s else some s
        tpm_tis_raise_irq s locty (TPM_TIS_INT_DATA_AVAILABLE ||| TPM_TIS_INT_STS_VALID)
    else some s

/-- `tpm_tis_tpm_send`: move the locality to `Execution`, build the command
descriptor from the buffer and the write cursor, and deliver it. -/
def tpm_tis_tpm_send (deliverRet : Int) (s : TPMIsa) (locty : Nat) : Option TPMIsa := do
  let s ← locsSet s locty (fun l => { l with state := TPMTISState.TpmTisStateExecution })
  let s := { s with cmd := some {
      locty := locty
      input := s.buffer
      input_len := s.rw_offset
      output := s.buffer
      output_len := (s.be_buffer_size : Int)
      selftest_done := false } }
  tpm_backend_deliver_request deliverRet s

/-- The byte-at-a-time FIFO write loop
(`while (sts & EXPECT) != 0 && size > 0 { ... }`).  A write past the
negotiated capacity forces `STS_VALID` (which clears `EXPECT`, ending the
loop); a write into a buffer shorter than the cursor is the Rust
index-out-of-bounds panic. -/
def tpm_tis_fifo_write_loop (locty : Nat) : TPMIsa → Nat → Nat → Option TPMIsa
  | s, _, 0 => some s
  | s, val, n + 1 => do
    let loc ← locsGet s locty
    if loc.sts &&& TPM_TIS_STS_EXPECT ≠ 0 then
      if s.rw_offset < s.be_buffer_size then
        if s.rw_offset < s.buffer.length then
          tpm_tis_fifo_write_loop locty
            { s with
              buffer := s.buffer.set s.rw_offset (val &&& 0xff)
              rw_offset := (s.rw_offset + 1) % 65536 }
            (val >>> 8) n
        else none
      else tpm_tis_sts_set s locty TPM_TIS_STS_VALID
    else some s

/-- The DATA_XFIFO write arm of `handle_write`. -/
def tpm_tis_xfifo_write (s : TPMIsa) (locty val0 shift addr size0 : Nat) : Option TPMIsa := do
  if s.active_locty = locty then do
    let loc ← locsGet s locty
    if loc.state = TPMTISState.TpmTisStateIdle ∨
        loc.state = TPMTISState.TpmTisStateExecution ∨
        loc.state = TPMTISState.TpmTisStateCompletion then
      some s
    else do
      let s ←
        if loc.state = TPMTISState.TpmTisStateReady then do
          let s ← locsSet s locty (fun l => { l with state := TPMTISState.TpmTisStateReception })
          tpm_tis_sts_set s locty (TPM_TIS_STS_EXPECT ||| TPM_TIS_STS_VALID)
        else some s
      let val := val0 >>> shift
      let size := if size0 > 4 - (addr &&& 0x3) then 4 - (addr &&& 0x3) else size0
      let s ← tpm_tis_fifo_write_loop locty s val size
      let loc ← locsGet s locty
      if s.rw_offset > 5 ∧ loc.sts &&& TPM_TIS_STS_EXPECT ≠ 0 then do
        let need_irq := ((0xffffffff : Nat) ^^^ (loc.sts &&& TPM_TIS_STS_VALID)) ≠ 0
        let len ← tpm_cmd_get_size s
        let s ←
          if len > s.rw_offset then
            tpm_tis_sts_set s locty (TPM_TIS_STS_EXPECT ||| TPM_TIS_STS_VALID)
          else
            tpm_tis_sts_set s locty TPM_TIS_STS_VALID
        if need_irq then tpm_tis_raise_irq s locty TPM_TIS_INT_STS_VALID else some s
      else some s
  else some s

/-- The scan `for c in (0..TPM_TIS_NUM_LOCALITIES-1).rev()` of the
ACTIVE_LOCALITY release path: first listed locality with `REQUEST_USE`
pending, else the no-locality sentinel. -/
def scanRequestUseGo (s : TPMIsa) : List Nat → Option Nat
  | [] => some TPM_TIS_NO_LOCALITY
  | c :: cs => do
    let loc ← locsGet s c
    if loc.access &&& TPM_TIS_ACCESS_REQUEST_USE ≠ 0 then some c
    else scanRequestUseGo s cs

def tpm_tis_scan_request_use (s : TPMIsa) : Option Nat :=
  scanRequestUseGo s (List.range (TPM_TIS_NUM_LOCALITIES - 1)).reverse

/-- The check `for l in locty+1..TPM_TIS_NUM_LOCALITIES-1` for an ongoing
seize by a higher locality. -/
def anyAccessSeize (s : TPMIsa) : List Nat → Option Bool
  | [] => some false
  | l :: ls => do
    let loc ← locsGet s l
    if loc.access &&& TPM_TIS_ACCESS_SEIZE ≠ 0 then some true
    else anyAccessSeize s ls

/-- The SEIZE sub-block of the ACCESS write arm (the `while { ... break }`
once-through).  Returns the updated state and the `set_new_locty` flag.
The cancel-lower-seize loop bound is the wrapping `u8` value `locty - 1`
(`(locty + 255) % 256`): for `locty = 0` the debug build panics on the
subtraction and the release build drives the loop past the 5-entry locality
table, so either build aborts (`none`). -/
def tpm_tis_seize_step (s : TPMIsa) (locty : Nat) (set_new_locty : Int) :
    Option (TPMIsa × Int) := do
  if (s.active_locty < 5 ∧ locty > s.active_locty) ∨ ¬ s.active_locty < 5 then do
    let loc ← locsGet s locty
    if loc.access &&& TPM_TIS_ACCESS_SEIZE ≠ 0 then some (s, set_new_locty)
    else do
      let higher_seize ← anyAccessSeize s
        (List.range' (locty + 1) ((TPM_TIS_NUM_LOCALITIES - 1) - (locty + 1)))
      if higher_seize then some (s, set_new_locty)
      else do
        let s ← forLocsUpd
          (fun l => { l with access := l.access &&& ((0xff : Nat) ^^^ TPM_TIS_ACCESS_SEIZE) })
          s (List.range ((locty + 255) % 256))
        let s ← locsSet s locty (fun l => { l with access := l.access ||| TPM_TIS_ACCESS_SEIZE })
        let s ← tpm_tis_prep_abort s s.active_locty locty
        some (s, (0 : Int))
  else some (s, set_new_locty)

/-- The ACCESS write arm of `handle_write`.  `set_new_locty` starts at `-1`
and becomes `0` on the paths that (per the source) hand the locality switch
elsewhere; the final `tpm_tis_new_active_locality` call runs only while it
is still nonzero. -/
def tpm_tis_access_write (s : TPMIsa) (locty val1 : Nat) : Option TPMIsa := do
  let val :=
    if val1 &&& TPM_TIS_ACCESS_SEIZE ≠ 0 then
      val1 &&& ((0xff : Nat) ^^^ (TPM_TIS_ACCESS_REQUEST_USE ||| TPM_TIS_ACCESS_ACTIVE_LOCALITY))
    else val1
  let r1 ←
    if val &&& TPM_TIS_ACCESS_ACTIVE_LOCALITY ≠ 0 then
      if s.active_locty = locty then do
        let newlocty ← tpm_tis_scan_request_use s
        if newlocty < 5 then
          some (s, s.active_locty, (0 : Int))
        else
          some (s, TPM_TIS_NO_LOCALITY, (-1 : Int))
      else do
        let s' ← locsSet s locty (fun l =>
          { l with access :=
              l.access &&& (((0xffffffff : Nat) ^^^ TPM_TIS_ACCESS_BEEN_SEIZED) &&& 0xff) })
        some (s', s'.active_locty, (-1 : Int))
    else some (s, s.active_locty, (-1 : Int))
  let (s, active_locty, set_new_locty) := r1
  let s ←
    if val &&& TPM_TIS_ACCESS_BEEN_SEIZED ≠ 0 then
      locsSet s locty (fun l =>
        { l with access :=
            l.access &&& (((0xffffffff : Nat) ^^^ TPM_TIS_ACCESS_BEEN_SEIZED) &&& 0xff) })
    else some s
  let r2 ←
    if val &&& TPM_TIS_ACCESS_SEIZE ≠ 0 then tpm_tis_seize_step s locty set_new_locty
    else some (s, set_new_locty)
  let (s, set_new_locty) := r2
  let r3 ←
    if val &&& TPM_TIS_ACCESS_REQUEST_USE ≠ 0 then
      if s.active_locty ≠ locty then
        if s.active_locty < 5 then do
          let s' ← locsSet s locty (fun l =>
            { l with access := l.access ||| TPM_TIS_ACCESS_REQUEST_USE })
          some (s', active_locty)
        else some (s, locty)
      else some (s, active_locty)
    else some (s, active_locty)
  let (s, active_locty) := r3
  if set_new_locty ≠ 0 then tpm_tis_new_active_locality s active_locty else some s

/-- The INT_ENABLE write arm (`mask` arrives already complemented). -/
def tpm_tis_int_enable_write (s : TPMIsa) (locty val mask : Nat) : Option TPMIsa :=
  if s.active_locty = locty then
    locsSet s locty (fun l =>
      { l with inte :=
          (l.inte &&& mask) |||
            (val &&& (TPM_TIS_INT_ENABLED ||| TPM_TIS_INT_POLARITY_MASK |||
              TPM_TIS_INTERRUPTS_SUPPORTED)) })
  else some s

/-- The INT_STATUS write arm (write-1-to-clear; lowering the platform line is
external). -/
def tpm_tis_int_status_write (s : TPMIsa) (locty val : Nat) : Option TPMIsa := do
  if s.active_locty = locty then do
    let loc ← locsGet s locty
    let s ←
      if val &&& TPM_TIS_INTERRUPTS_SUPPORTED ≠ 0 ∧
          loc.ints &&& TPM_TIS_INTERRUPTS_SUPPORTED ≠ 0 then
        locsSet s locty (fun l => { l with ints := l.ints &&& ((0xffffffff : Nat) ^^^ val) })
      else some s
    locsSet s locty (fun l =>
      { l with ints :=
          l.ints &&& ((0xffffffff : Nat) ^^^ (val &&& TPM_TIS_INTERRUPTS_SUPPORTED)) })
  else some s

/-- The STS write arm.  The TPM-2-only `COMMAND_CANCEL` and
`RESET_ESTABLISHMENT_BIT` side effects act on the backend only and leave the
embedded state untouched. -/
def tpm_tis_sts_write (deliverRet : Int) (s : TPMIsa) (locty val0 : Nat) : Option TPMIsa := do
  if s.active_locty = locty then do
    let val := val0 &&&
      (TPM_TIS_STS_COMMAND_READY ||| TPM_TIS_STS_TPM_GO ||| TPM_TIS_STS_RESPONSE_RETRY)
    if val = TPM_TIS_STS_COMMAND_READY then do
      let loc ← locsGet s locty
      match loc.state with
      | TPMTISState.TpmTisStateReady => some { s with rw_offset := 0 }
      | TPMTISState.TpmTisStateIdle => do
          let s ← tpm_tis_sts_set s locty TPM_TIS_STS_COMMAND_READY
          let s ← locsSet s locty (fun l => { l with state := TPMTISState.TpmTisStateReady })
          tpm_tis_raise_irq s locty TPM_TIS_INT_COMMAND_READY
      | TPMTISState.TpmTisStateExecution => some s
      | TPMTISState.TpmTisStateReception => tpm_tis_prep_abort s locty locty
      | TPMTISState.TpmTisStateCompletion => do
          let s := { s with rw_offset := 0 }
          let s ← locsSet s locty (fun l => { l with state := TPMTISState.TpmTisStateReady })
          let loc2 ← locsGet s locty
          let s ←
            if ((0xffffffff : Nat) ^^^ (loc2.sts &&& TPM_TIS_STS_COMMAND_READY)) ≠ 0 then do
              let s ← tpm_tis_sts_set s locty TPM_TIS_STS_COMMAND_READY
              tpm_tis_raise_irq s locty TPM_TIS_INT_COMMAND_READY
            else some s
          locsSet s locty (fun l =>
            { l with sts := l.sts &&& ((0xffffffff : Nat) ^^^ TPM_TIS_STS_DATA_AVAILABLE) })
    else if val = TPM_TIS_STS_TPM_GO then do
      let loc ← locsGet s locty
      match loc.state with
      | TPMTISState.TpmTisStateReception =>
          if loc.sts &&& TPM_TIS_STS_EXPECT = 0 then tpm_tis_tpm_send deliverRet s locty
          else some s
      | _ => some s
    else if val = TPM_TIS_STS_RESPONSE_RETRY then do
      let loc ← locsGet s locty
      match loc.state with
      | TPMTISState.TpmTisStateCompletion => do
          let s := { s with rw_offset := 0 }
          tpm_tis_sts_set s locty (TPM_TIS_STS_VALID ||| TPM_TIS_STS_DATA_AVAILABLE)
      | _ => some s
    else some s
  else some s

/-- The INTERFACE_ID write arm (lock-only; the source loop again covers
localities 0..3). -/
def tpm_tis_iface_write (s : TPMIsa) (val : Nat) : Option TPMIsa :=
  if val &&& TPM_TIS_IFACE_ID_INT_SEL_LOCK ≠ 0 then
    forLocsUpd (fun l => { l with iface_id := l.iface_id ||| TPM_TIS_IFACE_ID_INT_SEL_LOCK })
      s (List.range (TPM_TIS_NUM_LOCALITIES - 1))
  else some s

/-- `handle_write`.  Returns the post state and `some offset` for the
`BadWriteOffset` error of the default arm (`none` is a panic).  `size` is
`data.len()`; `val0`/`mask0` arrive from the bus adapter already assembled. -/
def tpm_handle_write (deliverRet : Int) (s : TPMIsa)
    (base offset val0 mask0 size : Nat) : Option (TPMIsa × Option Nat) :=
  let locty := tpm_tis_locality_from_addr (base + offset)
  let shift := ((base + offset) &&& 0x3) * 8
  let addr := base + offset
  let val := val0 &&& mask0
  let mask := mask0 ^^^ 0xffffffff
  if offset = TPM_TIS_REG_ACCESS then
    (tpm_tis_access_write s locty val).map (fun s' => (s', none))
  else if offset = TPM_TIS_REG_INT_ENABLE then
    (tpm_tis_int_enable_write s locty val mask).map (fun s' => (s', none))
  else if offset = TPM_TIS_REG_INT_VECTOR then some (s, none)
  else if offset = TPM_TIS_REG_INT_STATUS then
    (tpm_tis_int_status_write s locty val).map (fun s' => (s', none))
  else if offset = TPM_TIS_REG_STS then
    (tpm_tis_sts_write deliverRet s locty val).map (fun s' => (s', none))
  else if offset = TPM_TIS_REG_DATA_FIFO then some (s, none)
  else if TPM_TIS_REG_DATA_XFIFO ≤ offset ∧ offset ≤ TPM_TIS_REG_DATA_XFIFO_END then
    (tpm_tis_xfifo_write s locty val shift addr size).map (fun s' => (s', none))
  else if offset = TPM_TIS_REG_INTERFACE_ID then
    (tpm_tis_iface_write s val).map (fun s' => (s', none))
  else some (s, some offset)

/-- `tpm_tis_data_read`: pop one response byte in `Completion` state.  The
source truncates both the parsed command size and the negotiated buffer size
to `u16` before comparing with the cursor. -/
def tpm_tis_data_read (s : TPMIsa) (locty : Nat) : Option (TPMIsa × Nat) := do
  let loc ← locsGet s locty
  if loc.sts &&& TPM_TIS_STS_DATA_AVAILABLE ≠ 0 then do
    let sz ← tpm_cmd_get_size s
    let len := min (sz % 65536) (s.be_buffer_size % 65536)
    let ret ← s.buffer[s.rw_offset]?
    let s := { s with rw_offset := (s.rw_offset + 1) % 65536 }
    if s.rw_offset ≥ len then do
      let s ← tpm_tis_sts_set s locty TPM_TIS_STS_VALID
      some (s, ret)
    else some (s, ret)
  else some (s, TPM_TIS_NO_DATA_BYTE)

/-- The DATA_XFIFO read loop: one byte per iteration.  The source shifts the
`u8` byte by the running `u8` shift amount before widening, which in a
release build masks the shift to `shift % 8`. -/
def tpm_tis_xfifo_read_loop (locty : Nat) : TPMIsa → Nat → Nat → Nat →
    Option (TPMIsa × Nat) :=
  fun s val shift n =>
    match n with
    | 0 => some (s, val)
    | n + 1 => do
      let loc ← locsGet s locty
      let r ←
        match loc.state with
        | TPMTISState.TpmTisStateCompletion => tpm_tis_data_read s locty
        | _ => some (s, TPM_TIS_NO_DATA_BYTE)
      let (s, v) := r
      let val := val ||| ((v <<< (shift % 8)) &&& 0xff)
      tpm_tis_xfifo_read_loop locty s val (shift + 8) n

/-- Big-endian serialization of the final register value into the caller's
buffer, exactly as the `match data.len()` of the source: accesses of 1-4
bytes overwrite the whole buffer, anything else leaves it untouched. -/
def tpm_tis_serialize (val : Nat) (data : List Nat) : List Nat :=
  let res0 := (val >>> 24) &&& 0xff
  let res1 := (val >>> 16) &&& 0xff
  let res2 := (val >>> 8) &&& 0xff
  let res3 := val &&& 0xff
  if data.length = 1 then [res3]
  else if data.length = 2 then [res2, res3]
  else if data.length = 3 then [res1, res2, res3]
  else if data.length = 4 then [res0, res1, res2, res3]
  else data

/-- Wrapping `u32` subtraction (release-build semantics of `a - b`). -/
def wsub32 (a b : Nat) : Nat := (a + 0x100000000 - b) % 0x100000000

/-- `BusDevice::read`.  `estFlag` is the oracle value of the backend's
`get_tpm_established_flag`.  Returns the post state, the register value after
intra-word shifting, and the bytes stored into the caller's buffer. -/
def tpm_read (estFlag : Bool) (s : TPMIsa) (base offset : Nat) (data : List Nat) :
    Option (TPMIsa × Nat × List Nat) := do
  let locty := tpm_tis_locality_from_addr (base + offset)
  let size := data.length
  let shift0 := ((base + offset) &&& 0x3) * 8
  let r ←
    if offset = TPM_TIS_REG_ACCESS then do
      let loc ← locsGet s locty
      let v := loc.access &&& ((0xff : Nat) ^^^ TPM_TIS_ACCESS_SEIZE)
      let pending ← tpm_tis_check_request_use_except s locty
      let v := if pending ≠ 0 then v ||| TPM_TIS_ACCESS_PENDING_REQUEST else v
      let v := v ||| (if estFlag then 0 else 1)
      some (s, v, shift0)
    else if offset = TPM_TIS_REG_INT_ENABLE then do
      let loc ← locsGet s locty
      some (s, loc.inte, shift0)
    else if offset = TPM_TIS_REG_INT_VECTOR then some (s, s.irq_num, shift0)
    else if offset = TPM_TIS_REG_INT_STATUS then do
      let loc ← locsGet s locty
      some (s, loc.ints, shift0)
    else if offset = TPM_TIS_REG_INTF_CAPABILITY then
      some (s, TPM_TIS_CAPABILITIES_SUPPORTED2_0, shift0)
    else if offset = TPM_TIS_REG_STS then
      if s.active_locty = locty then do
        let loc ← locsGet s locty
        if loc.sts &&& TPM_TIS_STS_DATA_AVAILABLE ≠ 0 then do
          let sz ← tpm_cmd_get_size s
          if s.be_buffer_size < 0x100000000 then
            some (s,
              ((wsub32 (min sz s.be_buffer_size) s.rw_offset <<< 8) % 0x100000000) |||
                loc.sts,
              shift0)
          else none
        else do
          let avail := wsub32 s.be_buffer_size s.rw_offset
          let avail := if size = 1 ∧ avail > 0xff then 0xff else avail
          some (s, ((avail <<< 8) % 0x100000000) ||| loc.sts, shift0)
      else some (s, 0xffffffff, shift0)
    else if offset = TPM_TIS_REG_DATA_FIFO then some (s, 0xffffffff, shift0)
    else if TPM_TIS_REG_DATA_XFIFO ≤ offset ∧ offset ≤ TPM_TIS_REG_DATA_XFIFO_END then
      if s.active_locty = locty then do
        let size' := if size > 4 - (base &&& 0x3) then 4 - (base &&& 0x3) else size
        let rl ← tpm_tis_xfifo_read_loop locty s 0 0 size'
        some (rl.1, rl.2, 0)
      else some (s, 0xffffffff, shift0)
    else if offset = TPM_TIS_REG_INTERFACE_ID then do
      let loc ← locsGet s locty
      some (s, loc.iface_id, shift0)
    else if offset = TPM_TIS_REG_DID_VID then
      some (s, (TPM_TIS_TPM_DID <<< 16) ||| TPM_TIS_TPM_VID, shift0)
    else if offset = TPM_TIS_REG_RID then some (s, TPM_TIS_TPM_RID, shift0)
    else some (s, 0xffffffff, shift0)
  let (s, val, shift) := r
  let val := if shift ≠ 0 then val >>> shift else val
  some (s, val, tpm_tis_serialize val data)

/-- The intra-word shift applied by `read` after the register dispatch. -/
def tpm_tis_mmio_shift (base offset : Nat) : Nat := ((base + offset) &&& 0x3) * 8

/-- Final-value shifting step of `read` (`if shift != 0 { val >>= shift }`). -/
def shifted (v sh : Nat) : Nat := if sh ≠ 0 then v >>> sh else v

/-- The register value assembled by the ACCESS read arm, given the locality
record, the pending-scan result and the established flag. -/
def accessReadVal (est : Bool) (loc : TPMLocality) (r : Nat) : Nat :=
  let v := loc.access &&& ((0xff : Nat) ^^^ TPM_TIS_ACCESS_SEIZE)
  let v := if r ≠ 0 then v ||| TPM_TIS_ACCESS_PENDING_REQUEST else v
  v ||| (if est then 0 else 1)

/-- `TPMIsa::new` (guest-visible fields): all five localities reset, no
active locality, and — as the source leaves it (`//IMPLEMENT`) — an empty
command buffer. -/
def tpm_isa_new (be_buffer_size irq_num : Nat) : TPMIsa :=
  { buffer := []
    rw_offset := 0
    active_locty := TPM_TIS_NO_LOCALITY
    aborting_locty := TPM_TIS_NO_LOCALITY
    next_locty := TPM_TIS_NO_LOCALITY
    cmd := none
    locs := List.replicate TPM_TIS_NUM_LOCALITIES
      { state := TPMTISState.TpmTisStateIdle
        access := TPM_TIS_ACCESS_TPM_REG_VALID_STS
        sts := TPM_TIS_STS_TPM_FAMILY2_0
        iface_id := TPM_TIS_IFACE_ID_SUPPORTED_FLAGS2_0
        inte := TPM_TIS_INT_POLARITY_LOW_LEVEL
        ints := 0 }
    be_buffer_size := be_buffer_size
    irq_num := irq_num }

/-- Concrete-state builder for witnesses: one locality record with the
remaining registers at fixed values. -/
def mkLoc (st : TPMTISState) (access sts : Nat) : TPMLocality :=
  { state := st, access := access, sts := sts, iface_id := 0, inte := 8, ints := 0 }

/-- Concrete-state builder for witnesses: a device state with no pending
abort and no outstanding command. -/
def mkIsa (buffer : List Nat) (rw active : Nat) (locs : List TPMLocality) (bbs : Nat) :
    TPMIsa :=
  { buffer := buffer, rw_offset := rw, active_locty := active,
    aborting_locty := TPM_TIS_NO_LOCALITY, next_locty := TPM_TIS_NO_LOCALITY,
    cmd := none, locs := locs, be_buffer_size := bbs, irq_num := 5 }

end TpmTis

namespace Vtpm

open TpmTis (TPMBackendCmd get4BE)

/-- `tpm_util_is_selftest`: with at least a 10-byte header, the 4-byte
big-endian ordinal at buffer offset 6 equals `0x53`.  The slice
`input[6..10]` panics (`none`) when the vector is shorter than the claimed
length. -/
def tpm_util_is_selftest (input : List Nat) (in_len : Nat) : Option Bool :=
  if 10 ≤ in_len then (get4BE input 6).map (fun ord => decide (ord = 0x53))
  else some false

/-- The mutable state of `TPMEmulator` (channel handles and the mutex are
external; the TPM version is fixed to 2.0). -/
structure TPMEmulator where
  had_startup_error : Bool
  cmd : Option TPMBackendCmd
  caps : Nat
  cur_locty_number : Nat
  established_flag_cached : Nat
  established_flag : Nat
deriving DecidableEq, Repr

/-- Oracle for one `deliver_request` round: the control-channel result of
`SetLocality` (transport return plus decoded TPM result), the data-channel
`sendmsg` return value, and the bytes `recvfrom` stores into the response
buffer. -/
structure TPMChannelOracle where
  setLocCtrlRet : Int
  setLocResult : Nat
  sendRet : Int
  recvBytes : List Nat
deriving DecidableEq, Repr

/-- `recvfrom(fd, &mut dst)`: overwrite at most `dst.length` leading bytes. -/
def overwritePrefix (dst src : List Nat) : List Nat :=
  src.take dst.length ++ dst.drop (min src.length dst.length)

/-- `set_locality`: skipped entirely when the cached locality number already
matches the descriptor's. -/
def set_locality (o : TPMChannelOracle) (s : TPMEmulator) : TPMEmulator × Int :=
  match s.cmd with
  | none => (s, -1)
  | some cmd =>
    if s.cur_locty_number = cmd.locty then (s, 0)
    else if o.setLocCtrlRet < 0 then (s, -1)
    else if o.setLocResult ≠ 0 then (s, -1)
    else ({ s with cur_locty_number := cmd.locty }, 0)

/-- `unix_tx_bufs`: the data-channel exchange.  Faithful to the source, the
self-test classification runs only when the descriptor's `selftest_done`
flag is set on entry (it is then cleared before the send), and the exchange
proceeds past the send only when `sendmsg` returned 0. -/
def unix_tx_bufs (o : TPMChannelOracle) (s : TPMEmulator) : Option (TPMEmulator × Int) := do
  match s.cmd with
  | none => some (s, 0)
  | some cmd0 => do
    let r ←
      if cmd0.selftest_done then do
        let ist ← tpm_util_is_selftest cmd0.input cmd0.input_len
        some ({ cmd0 with selftest_done := false }, ist)
      else some (cmd0, false)
    let (cmd, is_selftest) := r
    if o.sendRet ≠ 0 then some ({ s with cmd := some cmd }, -1)
    else do
      let cmd := { cmd with output := overwritePrefix cmd.output o.recvBytes }
      if is_selftest then do
        let errcode ← get4BE cmd.output 6
        some ({ s with cmd := some { cmd with selftest_done := decide (errcode = 0) } }, 0)
      else some ({ s with cmd := some cmd }, 0)

/-- `handle_request`: set the locality, then run the data exchange
(short-circuiting exactly like `a < 0 || b < 0`). -/
def handle_request (o : TPMChannelOracle) (s : TPMEmulator) : Option (TPMEmulator × Int) := do
  if s.cmd.isSome then do
    let (s, r1) := set_locality o s
    if r1 < 0 then some (s, -1)
    else do
      let r ← unix_tx_bufs o s
      let (s, r2) := r
      if r2 < 0 then some (s, -1) else some (s, 0)
  else some (s, -1)

/-- `worker_thread`: run the request and clear the outstanding slot on
success (`tpm_backend_request_completed`). -/
def worker_thread (o : TPMChannelOracle) (s : TPMEmulator) : Option (TPMEmulator × Int) := do
  let r ← handle_request o s
  let (s, err) := r
  if err < 0 then some (s, -1)
  else some ({ s with cmd := none }, 0)

/-- `deliver_request`: accept the descriptor only when no command is
outstanding; otherwise fail with `-1` and change nothing. -/
def deliver_request (o : TPMChannelOracle) (s : TPMEmulator) (cmd : TPMBackendCmd) :
    Option (TPMEmulator × Int) :=
  if s.cmd.isNone then worker_thread o { s with cmd := some cmd }
  else some (s, -1)

/-- Concrete-descriptor builder for witnesses. -/
def mkCmd (locty : Nat) (input : List Nat) (input_len : Nat) (output : List Nat)
    (flag : Bool) : TPMBackendCmd :=
  { locty := locty, input := input, input_len := input_len, output := output,
    output_len := (output.length : Int), selftest_done := flag }

/-- Concrete-backend-state builder for witnesses. -/
def mkEmu (cmd : Option TPMBackendCmd) (cur : Nat) : TPMEmulator :=
  { had_startup_error := false, cmd := cmd, caps := 0x3fff, cur_locty_number := cur,
    established_flag_cached := 1, established_flag := 0 }

/-- Concrete-oracle builder for witnesses. -/
def mkOracle (sendRet : Int) (recv : List Nat) : TPMChannelOracle :=
  { setLocCtrlRet := 0, setLocResult := 0, sendRet := sendRet, recvBytes := recv }

end Vtpm

namespace TpmTis

/-! ### General helper lemmas shared by the claim proofs. -/

/-- A single-bit mask test is exactly a `testBit`. -/
theorem land_two_pow_ne_zero_iff (x n : Nat) : x &&& 2 ^ n ≠ 0 ↔ x.testBit n = true := by
  rw [Nat.and_two_pow]
  cases h : x.testBit n <;> simp [h]

theorem getElem?_lt_length {α : Type} {l : List α} {i : Nat} {a : α}
    (h : l[i]? = some a) : i < l.length :=
  (List.getElem?_eq_some.mp h).1

/-- Resolving `locsSet` when the locality exists. -/
theorem locsSet_some {s : TPMIsa} {i : Nat} {l : TPMLocality} (f : TPMLocality → TPMLocality)
    (h : s.locs[i]? = some l) :
    locsSet s i f = some { s with locs := s.locs.set i (f l) } := by
  simp [locsSet, h]

/-- The pending-request scan succeeds whenever the scanned indices are in
range. -/
theorem checkRequestUseGo_total (s : TPMIsa) (locty : Nat) :
    ∀ ls : List Nat, (∀ l ∈ ls, l < s.locs.length) →
      ∃ r, checkRequestUseGo s locty ls = some r := by
  intro ls
  induction ls with
  | nil => exact fun _ => ⟨0, rfl⟩
  | cons a tl ih =>
    intro h
    by_cases ha : a = locty
    · obtain ⟨r, hr⟩ := ih fun l hl => h l (List.mem_cons_of_mem _ hl)
      exact ⟨r, by simp [checkRequestUseGo, ha, hr]⟩
    · have hlt : a < s.locs.length := h a (List.mem_cons_self a tl)
      have hg : locsGet s a = some (s.locs[a]) := List.getElem?_eq_getElem hlt
      by_cases hb : (s.locs[a]).access &&& TPM_TIS_ACCESS_REQUEST_USE ≠ 0
      · exact ⟨1, by simp [checkRequestUseGo, ha, hg, hb]⟩
      · obtain ⟨r, hr⟩ := ih fun l hl => h l (List.mem_cons_of_mem _ hl)
        exact ⟨r, by simp [checkRequestUseGo, ha, hg, hb, hr]⟩

/-- Evaluation shape of an ACCESS-register read once the locality record and
the pending scan are resolved. -/
theorem tpm_read_access_eq (est : Bool) (s : TPMIsa) (base : Nat) (data : List Nat)
    (loc : TPMLocality) (r : Nat)
    (hg : locsGet s (tpm_tis_locality_from_addr (base + TPM_TIS_REG_ACCESS)) = some loc)
    (hr : checkRequestUseGo s (tpm_tis_locality_from_addr (base + TPM_TIS_REG_ACCESS))
        (List.range (TPM_TIS_NUM_LOCALITIES - 1)) = some r) :
    tpm_read est s base TPM_TIS_REG_ACCESS data =
      some (s, shifted (accessReadVal est loc r) (tpm_tis_mmio_shift base TPM_TIS_REG_ACCESS),
        tpm_tis_serialize
          (shifted (accessReadVal est loc r) (tpm_tis_mmio_shift base TPM_TIS_REG_ACCESS))
          data) := by
  simp [tpm_read, tpm_tis_check_request_use_except, hg, hr, shifted, accessReadVal,
    tpm_tis_mmio_shift]

/-- Full characterisation of a single in-range locality update. -/
theorem locsSet_spec {s : TPMIsa} {i : Nat} {l : TPMLocality} (f : TPMLocality → TPMLocality)
    (h : s.locs[i]? = some l) :
    ∃ s', locsSet s i f = some s' ∧
      s'.locs[i]? = some (f l) ∧
      (∀ j, j ≠ i → s'.locs[j]? = s.locs[j]?) ∧
      s'.locs.length = s.locs.length ∧
      s'.buffer = s.buffer ∧ s'.rw_offset = s.rw_offset ∧
      s'.active_locty = s.active_locty ∧ s'.aborting_locty = s.aborting_locty ∧
      s'.next_locty = s.next_locty ∧ s'.cmd = s.cmd ∧
      s'.be_buffer_size = s.be_buffer_size ∧ s'.irq_num = s.irq_num := by
  have hlen : i < s.locs.length := getElem?_lt_length h
  refine ⟨_, locsSet_some f h, ?_, ?_, ?_, rfl, rfl, rfl, rfl, rfl, rfl, rfl, rfl⟩
  · simpa using List.getElem?_set_self hlen
  · intro j hj
    simpa using List.getElem?_set_ne (Ne.symm hj)
  · simp

/-- `tpm_tis_raise_irq` can only change the `ints` accumulator of the target
locality; everything else survives unchanged. -/
theorem raise_irq_preserves (s : TPMIsa) (L mask : Nat) (loc : TPMLocality)
    (hg : s.locs[L]? = some loc) :
    ∃ s' ints', tpm_tis_raise_irq s L mask = some s' ∧
      s'.locs[L]? = some { loc with ints := ints' } ∧
      (∀ j, j ≠ L → s'.locs[j]? = s.locs[j]?) ∧
      s'.locs.length = s.locs.length ∧
      s'.buffer = s.buffer ∧ s'.rw_offset = s.rw_offset ∧
      s'.active_locty = s.active_locty ∧ s'.aborting_locty = s.aborting_locty ∧
      s'.next_locty = s.next_locty := by
  by_cases hL : L < 5
  · by_cases hcond : loc.inte &&& TPM_TIS_INT_ENABLED ≠ 0 ∧ loc.inte &&& mask ≠ 0
    · obtain ⟨s', hset, hgets, hother, hlen, hbuf, hrw, hal, hab, hnx, _, _, _⟩ :=
        locsSet_spec (fun l => { l with ints := l.ints ||| mask }) hg
      refine ⟨s', loc.ints ||| mask, ?_, hgets, hother, hlen, hbuf, hrw, hal, hab, hnx⟩
      simp [tpm_tis_raise_irq, hL, locsGet, hg, hcond, hset]
    · refine ⟨s, loc.ints, ?_, by simpa using hg, fun j _ => rfl, rfl, rfl, rfl, rfl, rfl, rfl⟩
      simp [tpm_tis_raise_irq, hL, locsGet, hg, hcond]
  · exact ⟨s, loc.ints, by simp [tpm_tis_raise_irq, hL], by simpa using hg,
      fun j _ => rfl, rfl, rfl, rfl, rfl, rfl, rfl⟩

/-- `get4BE` succeeds on buffers long enough. -/
theorem get4BE_total (l : List Nat) (i : Nat) (h : i + 4 ≤ l.length) :
    ∃ v, get4BE l i = some v := by
  have h0 : l[i]? = some l[i] := List.getElem?_eq_getElem (by omega)
  have h1 : l[i + 1]? = some l[i + 1] := List.getElem?_eq_getElem (by omega)
  have h2 : l[i + 2]? = some l[i + 2] := List.getElem?_eq_getElem (by omega)
  have h3 : l[i + 3]? = some l[i + 3] := List.getElem?_eq_getElem (by omega)
  exact ⟨(l[i] <<< 24) ||| (l[i + 1] <<< 16) ||| (l[i + 2] <<< 8) ||| l[i + 3],
    by simp [get4BE, h0, h1, h2, h3]⟩

/-! ### Claim C10: the ACCESS register read never exposes the SEIZE bit. -/

/-- C10: for every device state with its five localities, every established
flag answer, every base address selecting a valid locality, and every access
width, the value an ACCESS-register read returns has the SEIZE bit position
clear — even when the stored access byte has its seize bit set. -/
theorem c10_access_read_hides_seize (est : Bool) (s : TPMIsa) (base : Nat)
    (data : List Nat) (hlen : s.locs.length = 5)
    (hL : tpm_tis_locality_from_addr base < 5) :
    ∃ v bs, tpm_read est s base TPM_TIS_REG_ACCESS data = some (s, v, bs) ∧
      v.testBit 3 = false := by
  have hlt : tpm_tis_locality_from_addr (base + TPM_TIS_REG_ACCESS) < s.locs.length := by
    rw [hlen]; simpa [TPM_TIS_REG_ACCESS] using hL
  have hg : locsGet s (tpm_tis_locality_from_addr (base + TPM_TIS_REG_ACCESS)) =
      some (s.locs[tpm_tis_locality_from_addr (base + TPM_TIS_REG_ACCESS)]) :=
    List.getElem?_eq_getElem hlt
  obtain ⟨r, hr⟩ := checkRequestUseGo_total s
    (tpm_tis_locality_from_addr (base + TPM_TIS_REG_ACCESS))
    (List.range (TPM_TIS_NUM_LOCALITIES - 1))
    (by
      intro l hl
      rw [hlen]
      have h1 := List.mem_range.mp hl
      have h5 : TPM_TIS_NUM_LOCALITIES = 5 := rfl
      omega)
  set loc := s.locs[tpm_tis_locality_from_addr (base + TPM_TIS_REG_ACCESS)] with hloc
  refine ⟨_, _, tpm_read_access_eq est s base data loc r hg hr, ?_⟩
  have hb1 : (loc.access &&& ((0xff : Nat) ^^^ TPM_TIS_ACCESS_SEIZE)).testBit 3 = false := by
    rw [Nat.testBit_land]
    have hc : ((0xff : Nat) ^^^ TPM_TIS_ACCESS_SEIZE).testBit 3 = false := by decide
    simp [hc]
  have hsmall1 : loc.access &&& ((0xff : Nat) ^^^ TPM_TIS_ACCESS_SEIZE) < 2 ^ 8 :=
    lt_of_le_of_lt Nat.and_le_right (by decide)
  have hb3 : (accessReadVal est loc r).testBit 3 = false := by
    unfold accessReadVal
    by_cases hrr : r ≠ 0 <;> cases est <;>
      simp [hrr, Nat.testBit_lor, hb1] <;> decide
  have hsmall3 : accessReadVal est loc r < 2 ^ 8 := by
    unfold accessReadVal
    have s2 : (if r ≠ 0 then
        (loc.access &&& ((0xff : Nat) ^^^ TPM_TIS_ACCESS_SEIZE)) |||
          TPM_TIS_ACCESS_PENDING_REQUEST
      else loc.access &&& ((0xff : Nat) ^^^ TPM_TIS_ACCESS_SEIZE)) < 2 ^ 8 := by
      by_cases hrr : r ≠ 0
      · rw [if_pos hrr]
        exact Nat.or_lt_two_pow hsmall1 (by decide)
      · rw [if_neg hrr]
        exact hsmall1
    refine Nat.or_lt_two_pow s2 ?_
    cases est <;> decide
  unfold shifted
  by_cases hsh : tpm_tis_mmio_shift base TPM_TIS_REG_ACCESS ≠ 0
  · rw [if_pos hsh, Nat.testBit_shiftRight]
    have h8 : 8 ≤ tpm_tis_mmio_shift base TPM_TIS_REG_ACCESS := by
      unfold tpm_tis_mmio_shift at hsh ⊢
      omega
    refine Nat.testBit_lt_two_pow (lt_of_lt_of_le hsmall3 (Nat.pow_le_pow_right (by omega) ?_))
    omega
  · rw [if_neg hsh]
    exact hb3

/-- C10 witness: a state whose locality-0 access byte has the seize bit set
still reads back with bit 3 clear. -/
theorem c10_access_read_hides_seize_witness :
    ((mkIsa [] 0 0 [mkLoc TPMTISState.TpmTisStateIdle 0x88 0, mkLoc TPMTISState.TpmTisStateIdle 0x80 0,
        mkLoc TPMTISState.TpmTisStateIdle 0x80 0, mkLoc TPMTISState.TpmTisStateIdle 0x80 0,
        mkLoc TPMTISState.TpmTisStateIdle 0x80 0] 4096).locs.length = 5) ∧
    tpm_tis_locality_from_addr 0 < 5 ∧
    (∃ v bs, tpm_read true
        (mkIsa [] 0 0 [mkLoc TPMTISState.TpmTisStateIdle 0x88 0, mkLoc TPMTISState.TpmTisStateIdle 0x80 0,
          mkLoc TPMTISState.TpmTisStateIdle 0x80 0, mkLoc TPMTISState.TpmTisStateIdle 0x80 0,
          mkLoc TPMTISState.TpmTisStateIdle 0x80 0] 4096) 0 TPM_TIS_REG_ACCESS [0] =
        some (mkIsa [] 0 0 [mkLoc TPMTISState.TpmTisStateIdle 0x88 0, mkLoc TPMTISState.TpmTisStateIdle 0x80 0,
          mkLoc TPMTISState.TpmTisStateIdle 0x80 0, mkLoc TPMTISState.TpmTisStateIdle 0x80 0,
          mkLoc TPMTISState.TpmTisStateIdle 0x80 0] 4096, v, bs) ∧
      v.testBit 3 = false) :=
  ⟨by decide, by decide,
    c10_access_read_hides_seize true
      (mkIsa [] 0 0 [mkLoc TPMTISState.TpmTisStateIdle 0x88 0, mkLoc TPMTISState.TpmTisStateIdle 0x80 0,
        mkLoc TPMTISState.TpmTisStateIdle 0x80 0, mkLoc TPMTISState.TpmTisStateIdle 0x80 0,
        mkLoc TPMTISState.TpmTisStateIdle 0x80 0] 4096) 0 [0] (by decide) (by decide)⟩

/-! ### Claim C8: accesses at offsets outside the register map. -/

/-- Serializing the all-ones fallback value over a 1-4 byte buffer yields
all-ones bytes. -/
theorem serialize_allones (data : List Nat) (h1 : 1 ≤ data.length) (h4 : data.length ≤ 4) :
    tpm_tis_serialize 0xffffffff data = List.replicate data.length 0xff := by
  have h : data.length = 1 ∨ data.length = 2 ∨ data.length = 3 ∨ data.length = 4 := by omega
  rcases h with h | h | h | h <;> simp [tpm_tis_serialize, h, List.replicate] <;> decide

/-- C8 counterexample: the claim promises an all-ones read fallback for every
out-of-map offset, but a 4-byte read at the unaligned out-of-map offset
`0x05` returns `0x00ffffff` (the fallback shifted by 8 bits), whose first
serialized byte is `0x00`, not `0xff`. -/
theorem c8_unaligned_fallback_counterexample :
    tpm_read true (tpm_isa_new 4096 5) 0 0x05 [0, 0, 0, 0] =
      some (tpm_isa_new 4096 5, 0x00ffffff, [0x00, 0xff, 0xff, 0xff]) ∧
    ([0x00, 0xff, 0xff, 0xff] : List Nat) ≠ List.replicate 4 0xff :=
  ⟨by decide, by decide⟩

/-- C8 (amended): for every MMIO access at an offset outside the register
map with width at most 4 bytes, a write returns the `BadWriteOffset` error
with the state unchanged, and a read returns the all-ones fallback word
shifted right by `8 * ((base + offset) mod 4)` serialized big-endian into
the caller's buffer — which is entirely all-ones bytes whenever the access
address is 4-byte aligned. -/
theorem c8_unmapped_offset_access (dret : Int) (est : Bool) (s : TPMIsa)
    (base offset val mask size : Nat) (data : List Nat)
    (h0 : offset ≠ TPM_TIS_REG_ACCESS) (h1 : offset ≠ TPM_TIS_REG_INT_ENABLE)
    (h2 : offset ≠ TPM_TIS_REG_INT_VECTOR) (h3 : offset ≠ TPM_TIS_REG_INT_STATUS)
    (h4 : offset ≠ TPM_TIS_REG_INTF_CAPABILITY) (h5 : offset ≠ TPM_TIS_REG_STS)
    (h6 : offset ≠ TPM_TIS_REG_DATA_FIFO)
    (h7 : ¬ (TPM_TIS_REG_DATA_XFIFO ≤ offset ∧ offset ≤ TPM_TIS_REG_DATA_XFIFO_END))
    (h8 : offset ≠ TPM_TIS_REG_INTERFACE_ID) (h9 : offset ≠ TPM_TIS_REG_DID_VID)
    (h10 : offset ≠ TPM_TIS_REG_RID) (_hsize : size ≤ 4) :
    tpm_handle_write dret s base offset val mask size = some (s, some offset) ∧
    tpm_read est s base offset data =
      some (s, shifted 0xffffffff (tpm_tis_mmio_shift base offset),
        tpm_tis_serialize (shifted 0xffffffff (tpm_tis_mmio_shift base offset)) data) ∧
    ((base + offset) &&& 0x3 = 0 → 1 ≤ data.length → data.length ≤ 4 →
      tpm_tis_serialize (shifted 0xffffffff (tpm_tis_mmio_shift base offset)) data =
        List.replicate data.length 0xff) := by
  refine ⟨?_, ?_, ?_⟩
  · simp [tpm_handle_write, h0, h1, h2, h3, h5, h6, h7, h8]
  · simp [tpm_read, h0, h1, h2, h3, h4, h5, h6, h7, h8, h9, h10, shifted,
      tpm_tis_mmio_shift]
  · intro halign hl1 hl4
    have hsh : tpm_tis_mmio_shift base offset = 0 := by
      unfold tpm_tis_mmio_shift
      rw [halign]
    rw [hsh, show shifted 0xffffffff 0 = 0xffffffff from by simp [shifted]]
    exact serialize_allones data hl1 hl4

/-- C8 witness: a 1-byte access at the aligned out-of-map offset `0x40`. -/
theorem c8_unmapped_offset_access_witness :
    ((0x40 : Nat) ≠ TPM_TIS_REG_ACCESS) ∧
    (tpm_handle_write 0 (tpm_isa_new 4096 5) 0 0x40 0xff 0xff 1 =
        some (tpm_isa_new 4096 5, some 0x40) ∧
      tpm_read true (tpm_isa_new 4096 5) 0 0x40 [0] =
        some (tpm_isa_new 4096 5, shifted 0xffffffff (tpm_tis_mmio_shift 0 0x40),
          tpm_tis_serialize (shifted 0xffffffff (tpm_tis_mmio_shift 0 0x40)) [0]) ∧
      ((0 + 0x40) &&& 0x3 = 0 → 1 ≤ ([0] : List Nat).length → ([0] : List Nat).length ≤ 4 →
        tpm_tis_serialize (shifted 0xffffffff (tpm_tis_mmio_shift 0 0x40)) [0] =
          List.replicate ([0] : List Nat).length 0xff)) :=
  ⟨by decide,
    c8_unmapped_offset_access 0 true (tpm_isa_new 4096 5) 0 0x40 0xff 0xff 1 [0]
      (by decide) (by decide) (by decide) (by decide) (by decide) (by decide) (by decide)
      (by decide) (by decide) (by decide) (by decide) (by decide)⟩

/-! ### Claim C7: self-test detection in the data-channel exchange. -/

/-- C7 counterexample: the claim says the self-test flag is armed exactly
when the opcode at offset 6 is the self-test ordinal, and set after receive
exactly when the response error code is zero.  The code only runs the check
when the descriptor's flag was already set on entry; a descriptor created by
the TIS engine (flag `false`) carrying a genuine self-test command whose
response has error code zero still ends the exchange with the flag `false`. -/
theorem c7_selftest_never_armed_counterexample :
    Vtpm.tpm_util_is_selftest [0x80, 0x01, 0, 0, 0, 10, 0, 0, 0, 0x53] 10 = some true ∧
    get4BE (Vtpm.overwritePrefix (List.replicate 10 0) [0x80, 0x01, 0, 0, 0, 10, 0, 0, 0, 0]) 6 =
      some 0 ∧
    (Vtpm.unix_tx_bufs (Vtpm.mkOracle 0 [0x80, 0x01, 0, 0, 0, 10, 0, 0, 0, 0])
        (Vtpm.mkEmu
          (some (Vtpm.mkCmd 0 [0x80, 0x01, 0, 0, 0, 10, 0, 0, 0, 0x53] 10
            (List.replicate 10 0) false)) 0)).map
      (fun r => (r.1.cmd.map (fun c => c.selftest_done), r.2)) = some (some false, 0) :=
  ⟨by decide, by decide, by decide⟩

/-- C7 (amended): the self-test classification only runs when the
descriptor's flag is set on entry.  In every completed exchange (send
reported 0, response received), the final flag equals
`entry_flag AND (input_len ≥ 10 AND opcode at offset 6 = 0x53) AND
(response error code at bytes 6..10 = 0)`; the input bytes travel to the
backend unchanged and the response overwrites the output buffer. -/
theorem c7_selftest_flag_amended (o : Vtpm.TPMChannelOracle) (s : Vtpm.TPMEmulator)
    (c : TPMBackendCmd) (ist : Bool) (err : Nat)
    (hc : s.cmd = some c) (hsend : o.sendRet = 0)
    (hist : Vtpm.tpm_util_is_selftest c.input c.input_len = some ist)
    (herr : get4BE (Vtpm.overwritePrefix c.output o.recvBytes) 6 = some err) :
    ∃ c', Vtpm.unix_tx_bufs o s = some ({ s with cmd := some c' }, 0) ∧
      c'.selftest_done = (c.selftest_done && ist && decide (err = 0)) ∧
      c'.output = Vtpm.overwritePrefix c.output o.recvBytes ∧
      c'.input = c.input ∧ c'.input_len = c.input_len ∧ c'.locty = c.locty := by
  cases hflag : c.selftest_done with
  | false =>
    refine ⟨{ c with output := Vtpm.overwritePrefix c.output o.recvBytes }, ?_, ?_, rfl, rfl,
      rfl, rfl⟩
    · simp [Vtpm.unix_tx_bufs, hc, hflag, hsend]
    · simp [hflag]
  | true =>
    cases hist' : ist with
    | false =>
      refine ⟨{ c with
                selftest_done := false
                output := Vtpm.overwritePrefix c.output o.recvBytes }, ?_, ?_, rfl, rfl, rfl, rfl⟩
      · rw [hist'] at hist
        simp [Vtpm.unix_tx_bufs, hc, hflag, hsend, hist]
      · simp [hflag, hist']
    | true =>
      refine ⟨{ c with
                selftest_done := decide (err = 0)
                output := Vtpm.overwritePrefix c.output o.recvBytes }, ?_, ?_, rfl, rfl, rfl, rfl⟩
      · rw [hist'] at hist
        simp [Vtpm.unix_tx_bufs, hc, hflag, hsend, hist, herr]
      · simp [hflag, hist']

/-- C7 witness: a descriptor whose flag is set on entry, carrying a
self-test command answered with error code zero, ends up with the flag set. -/
theorem c7_selftest_flag_amended_witness :
    ((Vtpm.mkEmu
        (some (Vtpm.mkCmd 0 [0x80, 0x01, 0, 0, 0, 10, 0, 0, 0, 0x53] 10
          (List.replicate 10 0) true)) 0).cmd =
      some (Vtpm.mkCmd 0 [0x80, 0x01, 0, 0, 0, 10, 0, 0, 0, 0x53] 10
        (List.replicate 10 0) true)) ∧
    (∃ c', Vtpm.unix_tx_bufs (Vtpm.mkOracle 0 [0x80, 0x01, 0, 0, 0, 10, 0, 0, 0, 0])
        (Vtpm.mkEmu
          (some (Vtpm.mkCmd 0 [0x80, 0x01, 0, 0, 0, 10, 0, 0, 0, 0x53] 10
            (List.replicate 10 0) true)) 0) =
        some ({ Vtpm.mkEmu
          (some (Vtpm.mkCmd 0 [0x80, 0x01, 0, 0, 0, 10, 0, 0, 0, 0x53] 10
            (List.replicate 10 0) true)) 0 with cmd := some c' }, 0) ∧
      c'.selftest_done =
        ((Vtpm.mkCmd 0 [0x80, 0x01, 0, 0, 0, 10, 0, 0, 0, 0x53] 10
            (List.replicate 10 0) true).selftest_done && true && decide ((0 : Nat) = 0)) ∧
      c'.output = Vtpm.overwritePrefix (List.replicate 10 0) [0x80, 0x01, 0, 0, 0, 10, 0, 0, 0, 0] ∧
      c'.input = (Vtpm.mkCmd 0 [0x80, 0x01, 0, 0, 0, 10, 0, 0, 0, 0x53] 10
        (List.replicate 10 0) true).input ∧
      c'.input_len = (Vtpm.mkCmd 0 [0x80, 0x01, 0, 0, 0, 10, 0, 0, 0, 0x53] 10
        (List.replicate 10 0) true).input_len ∧
      c'.locty = (Vtpm.mkCmd 0 [0x80, 0x01, 0, 0, 0, 10, 0, 0, 0, 0x53] 10
        (List.replicate 10 0) true).locty) :=
  ⟨by decide,
    c7_selftest_flag_amended (Vtpm.mkOracle 0 [0x80, 0x01, 0, 0, 0, 10, 0, 0, 0, 0])
      (Vtpm.mkEmu
        (some (Vtpm.mkCmd 0 [0x80, 0x01, 0, 0, 0, 10, 0, 0, 0, 0x53] 10
          (List.replicate 10 0) true)) 0)
      (Vtpm.mkCmd 0 [0x80, 0x01, 0, 0, 0, 10, 0, 0, 0, 0x53] 10
        (List.replicate 10 0) true) true 0
      (by decide) (by decide) (by decide) (by decide)⟩

/-! ### Claim C3: FIFO writes and the EXPECT bit. -/

/-- The FIFO write loop, when every byte fits below the negotiated capacity,
stores the bytes and advances the cursor by exactly the chunk size, leaving
the locality table (and thus the STS register) untouched. -/
theorem fifo_write_loop_spec (L : Nat) :
    ∀ (n : Nat) (s : TPMIsa) (val : Nat) (loc : TPMLocality),
      s.locs[L]? = some loc →
      loc.sts &&& TPM_TIS_STS_EXPECT ≠ 0 →
      s.rw_offset + n ≤ s.be_buffer_size →
      s.be_buffer_size ≤ s.buffer.length →
      s.be_buffer_size < 65536 →
      ∃ buf', tpm_tis_fifo_write_loop L s val n =
          some { s with buffer := buf', rw_offset := s.rw_offset + n } ∧
        buf'.length = s.buffer.length := by
  intro n
  induction n with
  | zero =>
    intro s val loc _ _ _ _ _
    exact ⟨s.buffer, by simp [tpm_tis_fifo_write_loop], rfl⟩
  | succ n ih =>
    intro s val loc hg hexp hcap hlen hbb
    have h1 : s.rw_offset < s.be_buffer_size := by omega
    have h2 : s.rw_offset < s.buffer.length := by omega
    have hmod : (s.rw_offset + 1) % 65536 = s.rw_offset + 1 := Nat.mod_eq_of_lt (by omega)
    obtain ⟨buf', hrec, hlen'⟩ := ih
      { s with
        buffer := s.buffer.set s.rw_offset (val &&& 0xff)
        rw_offset := s.rw_offset + 1 }
      (val >>> 8) loc hg hexp
      (by
        show s.rw_offset + 1 + n ≤ s.be_buffer_size
        omega)
      (by
        show s.be_buffer_size ≤ (s.buffer.set s.rw_offset (val &&& 0xff)).length
        rw [List.length_set]
        exact hlen)
      hbb
    refine ⟨buf', ?_, ?_⟩
    · rw [tpm_tis_fifo_write_loop]
      simp only [locsGet, hg, Option.bind_eq_bind, Option.some_bind]
      rw [if_pos hexp, if_pos h1, if_pos h2, hmod]
      have hadd : s.rw_offset + (n + 1) = s.rw_offset + 1 + n := by omega
      rw [show ({ s with buffer := buf', rw_offset := s.rw_offset + (n + 1) } : TPMIsa) =
        { s with buffer := buf', rw_offset := s.rw_offset + 1 + n } from by rw [hadd]]
      exact hrec
    · rw [hlen']
      simp

/-- C3: a FIFO write chunk by the active locality in Reception state, with
the chunk fitting under the negotiated capacity, buffers the bytes and then
reports the command complete — clears `EXPECT` — exactly when the cursor has
reached the big-endian length V at the buffered bytes [2..6], and never
before: below V (or before 6 bytes are buffered) `EXPECT` and `VALID`
remain set. -/
theorem c3_fifo_write_expect_tracking (s : TPMIsa) (L val addr size0 : Nat)
    (loc : TPMLocality)
    (hact : s.active_locty = L)
    (hg : s.locs[L]? = some loc)
    (hstate : loc.state = TPMTISState.TpmTisStateReception)
    (hexp : loc.sts &&& TPM_TIS_STS_EXPECT ≠ 0)
    (_hvalid : loc.sts &&& TPM_TIS_STS_VALID ≠ 0)
    (halign : addr &&& 0x3 = 0)
    (hsize : size0 ≤ 4)
    (hcap : s.rw_offset + size0 ≤ s.be_buffer_size)
    (hblen : s.be_buffer_size ≤ s.buffer.length)
    (hb6 : 6 ≤ s.buffer.length)
    (hbb : s.be_buffer_size < 65536) :
    ∃ s' loc' V,
      tpm_tis_xfifo_write s L val 0 addr size0 = some s' ∧
      s'.rw_offset = s.rw_offset + size0 ∧
      s'.locs[L]? = some loc' ∧
      get4BE s'.buffer 2 = some V ∧
      (s.rw_offset + size0 ≤ 5 → loc'.sts = loc.sts) ∧
      (5 < s.rw_offset + size0 →
        ((loc'.sts &&& TPM_TIS_STS_EXPECT ≠ 0) ↔ s.rw_offset + size0 < V) ∧
        loc'.sts &&& TPM_TIS_STS_VALID ≠ 0) := by
  have hstA : ¬ loc.state = TPMTISState.TpmTisStateIdle := by rw [hstate]; decide
  have hstB : ¬ loc.state = TPMTISState.TpmTisStateExecution := by rw [hstate]; decide
  have hstC : ¬ loc.state = TPMTISState.TpmTisStateCompletion := by rw [hstate]; decide
  have hstD : ¬ loc.state = TPMTISState.TpmTisStateReady := by rw [hstate]; decide
  have hclip : ¬ (size0 > 4 - (addr &&& 0x3)) := by omega
  obtain ⟨buf', hloop, hblen'⟩ :=
    fifo_write_loop_spec L size0 s val loc hg hexp hcap hblen hbb
  set s1 : TPMIsa := { s with buffer := buf', rw_offset := s.rw_offset + size0 } with hs1
  have hg1 : s1.locs[L]? = some loc := hg
  have hrw1 : s1.rw_offset = s.rw_offset + size0 := rfl
  obtain ⟨V, hV⟩ := get4BE_total buf' 2 (by omega)
  have hcmd : tpm_cmd_get_size s1 = some V := hV
  have hneed : ¬ ((4294967295 : Nat) = loc.sts &&& TPM_TIS_STS_VALID) := by
    have hle : loc.sts &&& TPM_TIS_STS_VALID ≤ TPM_TIS_STS_VALID := Nat.and_le_right
    have : TPM_TIS_STS_VALID = 128 := rfl
    omega
  by_cases h5 : 5 < s.rw_offset + size0
  · by_cases hVgt : s.rw_offset + size0 < V
    · -- incomplete: keep EXPECT|VALID
      obtain ⟨s2, hset2, hget2, _, _, hbuf2, hrw2, _, _, _, _, _, _⟩ :=
        locsSet_spec (fun l =>
          { l with sts :=
              (l.sts &&& (TPM_TIS_STS_SELFTEST_DONE ||| TPM_TIS_STS_TPM_FAMILY_MASK)) |||
                (TPM_TIS_STS_EXPECT ||| TPM_TIS_STS_VALID) }) hg1
      obtain ⟨s3, ints', hraise, hget3, _, _, hbuf3, hrw3, _, _, _⟩ :=
        raise_irq_preserves s2 L TPM_TIS_INT_STS_VALID _ hget2
      refine ⟨s3, _, V, ?_, ?_, hget3, ?_, ?_, ?_⟩
      · simp [tpm_tis_xfifo_write, hact, locsGet, hg, hstA, hstB, hstC, hstD, hclip,
          hloop, hg1, hrw1, h5, hexp, hcmd, hVgt, hneed, tpm_tis_sts_set, hset2, hraise]
      · rw [hrw3, hrw2]
      · rw [hbuf3, hbuf2]
        exact hV
      · intro h
        omega
      · intro _
        constructor
        · have hbit : (((loc.sts &&&
              (TPM_TIS_STS_SELFTEST_DONE ||| TPM_TIS_STS_TPM_FAMILY_MASK)) |||
              (TPM_TIS_STS_EXPECT ||| TPM_TIS_STS_VALID)) &&& TPM_TIS_STS_EXPECT) ≠ 0 := by
            rw [show TPM_TIS_STS_EXPECT = 2 ^ 3 from rfl, land_two_pow_ne_zero_iff]
            simp [Nat.testBit_lor, Nat.testBit_land,
              show (TPM_TIS_STS_SELFTEST_DONE).testBit 3 = false from by decide,
              show (TPM_TIS_STS_TPM_FAMILY_MASK).testBit 3 = false from by decide,
              show (TPM_TIS_STS_VALID).testBit 3 = false from by decide,
              show Nat.testBit 8 3 = true from by decide]
          exact iff_of_true hbit hVgt
        · rw [show TPM_TIS_STS_VALID = 2 ^ 7 from rfl, land_two_pow_ne_zero_iff]
          simp [Nat.testBit_lor, Nat.testBit_land,
            show (TPM_TIS_STS_SELFTEST_DONE).testBit 7 = false from by decide,
            show (TPM_TIS_STS_TPM_FAMILY_MASK).testBit 7 = false from by decide,
            show (TPM_TIS_STS_EXPECT).testBit 7 = false from by decide,
            show Nat.testBit 128 7 = true from by decide]
    · -- complete: clear EXPECT, keep VALID
      obtain ⟨s2, hset2, hget2, _, _, hbuf2, hrw2, _, _, _, _, _, _⟩ :=
        locsSet_spec (fun l =>
          { l with sts :=
              (l.sts &&& (TPM_TIS_STS_SELFTEST_DONE ||| TPM_TIS_STS_TPM_FAMILY_MASK)) |||
                TPM_TIS_STS_VALID }) hg1
      obtain ⟨s3, ints', hraise, hget3, _, _, hbuf3, hrw3, _, _, _⟩ :=
        raise_irq_preserves s2 L TPM_TIS_INT_STS_VALID _ hget2
      refine ⟨s3, _, V, ?_, ?_, hget3, ?_, ?_, ?_⟩
      · simp [tpm_tis_xfifo_write, hact, locsGet, hg, hstA, hstB, hstC, hstD, hclip,
          hloop, hg1, hrw1, h5, hexp, hcmd, hVgt, hneed, tpm_tis_sts_set, hset2, hraise]
      · rw [hrw3, hrw2]
      · rw [hbuf3, hbuf2]
        exact hV
      · intro h
        omega
      · intro _
        constructor
        · have hbit : (((loc.sts &&&
              (TPM_TIS_STS_SELFTEST_DONE ||| TPM_TIS_STS_TPM_FAMILY_MASK)) |||
              TPM_TIS_STS_VALID) &&& TPM_TIS_STS_EXPECT) = 0 := by
            rw [show TPM_TIS_STS_EXPECT = 2 ^ 3 from rfl, Nat.and_two_pow]
            simp [Nat.testBit_lor, Nat.testBit_land,
              show (TPM_TIS_STS_SELFTEST_DONE).testBit 3 = false from by decide,
              show (TPM_TIS_STS_TPM_FAMILY_MASK).testBit 3 = false from by decide,
              show (TPM_TIS_STS_VALID).testBit 3 = false from by decide]
          rw [hbit]
          exact iff_of_false (by simp) (by omega)
        · rw [show TPM_TIS_STS_VALID = 2 ^ 7 from rfl, land_two_pow_ne_zero_iff]
          simp [Nat.testBit_lor, Nat.testBit_land,
            show (TPM_TIS_STS_SELFTEST_DONE).testBit 7 = false from by decide,
            show (TPM_TIS_STS_TPM_FAMILY_MASK).testBit 7 = false from by decide,
            show Nat.testBit 128 7 = true from by decide]
  · -- six bytes not yet buffered: no completion check, STS untouched
    refine ⟨s1, loc, V, ?_, rfl, hg1, hV, fun _ => rfl, fun h => absurd h h5⟩
    simp [tpm_tis_xfifo_write, hact, locsGet, hg, hstA, hstB, hstC, hstD, hclip,
      hloop, hg1, hrw1, h5]

/-- C3 witness: locality 0 in Reception writes a 2-byte chunk, moving the
cursor from 4 to 6, against a buffered big-endian length field of 10: the
command is not yet complete, so `EXPECT` and `VALID` stay set. -/
theorem c3_fifo_write_expect_tracking_witness :
    ((mkIsa [0x80, 0x01, 0, 0, 0, 10, 0, 0, 0, 0] 4 0
        [mkLoc TPMTISState.TpmTisStateReception 0xa0 0x4000088,
         mkLoc TPMTISState.TpmTisStateIdle 0x80 0,
         mkLoc TPMTISState.TpmTisStateIdle 0x80 0,
         mkLoc TPMTISState.TpmTisStateIdle 0x80 0,
         mkLoc TPMTISState.TpmTisStateIdle 0x80 0] 10).active_locty = 0) ∧
    (∃ s' loc' V,
      tpm_tis_xfifo_write
        (mkIsa [0x80, 0x01, 0, 0, 0, 10, 0, 0, 0, 0] 4 0
          [mkLoc TPMTISState.TpmTisStateReception 0xa0 0x4000088,
           mkLoc TPMTISState.TpmTisStateIdle 0x80 0,
           mkLoc TPMTISState.TpmTisStateIdle 0x80 0,
           mkLoc TPMTISState.TpmTisStateIdle 0x80 0,
           mkLoc TPMTISState.TpmTisStateIdle 0x80 0] 10) 0 0x4142 0 0x80 2 = some s' ∧
      s'.rw_offset = 4 + 2 ∧
      s'.locs[0]? = some loc' ∧
      get4BE s'.buffer 2 = some V ∧
      (4 + 2 ≤ 5 → loc'.sts = (mkLoc TPMTISState.TpmTisStateReception 0xa0 0x4000088).sts) ∧
      (5 < 4 + 2 →
        ((loc'.sts &&& TPM_TIS_STS_EXPECT ≠ 0) ↔ 4 + 2 < V) ∧
        loc'.sts &&& TPM_TIS_STS_VALID ≠ 0)) :=
  ⟨by decide,
    c3_fifo_write_expect_tracking
      (mkIsa [0x80, 0x01, 0, 0, 0, 10, 0, 0, 0, 0] 4 0
        [mkLoc TPMTISState.TpmTisStateReception 0xa0 0x4000088,
         mkLoc TPMTISState.TpmTisStateIdle 0x80 0,
         mkLoc TPMTISState.TpmTisStateIdle 0x80 0,
         mkLoc TPMTISState.TpmTisStateIdle 0x80 0,
         mkLoc TPMTISState.TpmTisStateIdle 0x80 0] 10) 0 0x4142 0x80 2
      (mkLoc TPMTISState.TpmTisStateReception 0xa0 0x4000088)
      (by decide) (by decide) (by decide) (by decide) (by decide) (by decide)
      (by decide) (by decide) (by decide) (by decide) (by decide)⟩

/-! ### Claim C4: the STS read value. -/

/-- Wrapping `u32` subtraction agrees with plain subtraction in range. -/
theorem wsub32_of_le {a b : Nat} (hb : b ≤ a) (ha : a < 0x100000000) :
    wsub32 a b = a - b := by
  unfold wsub32
  omega

/-- C4: an STS read by the active locality returns
`((min(command_length, backend_buffer_size) - read_cursor) << 8) | sts`
when the locality's data-available bit is set, and
`((backend_buffer_size - read_cursor) << 8) | sts` otherwise, with the
available count capped to `0xFF` in the latter case when the read width is
one byte. -/
theorem c4_sts_read_value (est : Bool) (s : TPMIsa) (L base : Nat) (data : List Nat)
    (loc : TPMLocality) (cs : Nat)
    (hbase_loc : tpm_tis_locality_from_addr (base + TPM_TIS_REG_STS) = L)
    (hbase_align : (base + TPM_TIS_REG_STS) &&& 0x3 = 0)
    (hact : s.active_locty = L)
    (hg : s.locs[L]? = some loc)
    (hcs : get4BE s.buffer 2 = some cs)
    (hbbs : s.be_buffer_size ≤ 4096)
    (hrw1 : loc.sts &&& TPM_TIS_STS_DATA_AVAILABLE ≠ 0 → s.rw_offset ≤ min cs s.be_buffer_size)
    (hrw2 : s.rw_offset ≤ s.be_buffer_size) :
    tpm_read est s base TPM_TIS_REG_STS data =
      some (s,
        (if loc.sts &&& TPM_TIS_STS_DATA_AVAILABLE ≠ 0 then
          ((min cs s.be_buffer_size - s.rw_offset) <<< 8) ||| loc.sts
        else
          ((if data.length = 1 ∧ s.be_buffer_size - s.rw_offset > 0xff then 0xff
            else s.be_buffer_size - s.rw_offset) <<< 8) ||| loc.sts),
        tpm_tis_serialize
          (if loc.sts &&& TPM_TIS_STS_DATA_AVAILABLE ≠ 0 then
            ((min cs s.be_buffer_size - s.rw_offset) <<< 8) ||| loc.sts
          else
            ((if data.length = 1 ∧ s.be_buffer_size - s.rw_offset > 0xff then 0xff
              else s.be_buffer_size - s.rw_offset) <<< 8) ||| loc.sts) data) := by
  have e0 : ¬ (TPM_TIS_REG_STS = TPM_TIS_REG_ACCESS) := by decide
  have e1 : ¬ (TPM_TIS_REG_STS = TPM_TIS_REG_INT_ENABLE) := by decide
  have e2 : ¬ (TPM_TIS_REG_STS = TPM_TIS_REG_INT_VECTOR) := by decide
  have e3 : ¬ (TPM_TIS_REG_STS = TPM_TIS_REG_INT_STATUS) := by decide
  have e4 : ¬ (TPM_TIS_REG_STS = TPM_TIS_REG_INTF_CAPABILITY) := by decide
  have hsmall : s.be_buffer_size < 0x100000000 := by omega
  have hw2 : wsub32 s.be_buffer_size s.rw_offset = s.be_buffer_size - s.rw_offset :=
    wsub32_of_le hrw2 hsmall
  by_cases hda : loc.sts &&& TPM_TIS_STS_DATA_AVAILABLE ≠ 0
  · have hw1 : wsub32 (min cs s.be_buffer_size) s.rw_offset =
        min cs s.be_buffer_size - s.rw_offset :=
      wsub32_of_le (hrw1 hda) (by omega)
    have hmod : ((min cs s.be_buffer_size - s.rw_offset) <<< 8) % 0x100000000 =
        (min cs s.be_buffer_size - s.rw_offset) <<< 8 := by
      rw [Nat.shiftLeft_eq]
      have : min cs s.be_buffer_size ≤ s.be_buffer_size := Nat.min_le_right _ _
      apply Nat.mod_eq_of_lt
      omega
    simp [tpm_read, e0, e1, e2, e3, e4, hbase_loc, hact, hg, locsGet, hda, hcs,
      tpm_cmd_get_size, hsmall, hw1, hmod, hbase_align, shifted, tpm_tis_mmio_shift]
  · have hmod2 : ∀ x : Nat, x ≤ 4096 → (x <<< 8) % 0x100000000 = x <<< 8 := by
      intro x hx
      rw [Nat.shiftLeft_eq]
      apply Nat.mod_eq_of_lt
      omega
    have hda' : loc.sts &&& TPM_TIS_STS_DATA_AVAILABLE = 0 := by
      simpa using hda
    by_cases hcap : data.length = 1 ∧ s.be_buffer_size - s.rw_offset > 0xff
    · simp [tpm_read, e0, e1, e2, e3, e4, hbase_loc, hact, hg, locsGet, hda', hw2,
        hcap, hmod2 0xff (by omega), hbase_align, shifted, tpm_tis_mmio_shift]
    · simp [tpm_read, e0, e1, e2, e3, e4, hbase_loc, hact, hg, locsGet, hda', hw2,
        hcap, hmod2 (s.be_buffer_size - s.rw_offset) (by omega), hbase_align, shifted,
        tpm_tis_mmio_shift]

/-- C4 witness: locality 0 reads its STS register with no data available and
cursor 4 into a 10-byte negotiated buffer. -/
theorem c4_sts_read_value_witness :
    (tpm_tis_locality_from_addr (0 + TPM_TIS_REG_STS) = 0) ∧
    (tpm_read true
      (mkIsa [0x80, 0x01, 0, 0, 0, 10, 0, 0, 0, 0] 4 0
        [mkLoc TPMTISState.TpmTisStateReception 0xa0 0x4000088,
         mkLoc TPMTISState.TpmTisStateIdle 0x80 0,
         mkLoc TPMTISState.TpmTisStateIdle 0x80 0,
         mkLoc TPMTISState.TpmTisStateIdle 0x80 0,
         mkLoc TPMTISState.TpmTisStateIdle 0x80 0] 10)
      0 TPM_TIS_REG_STS [0, 0, 0, 0] =
      some (mkIsa [0x80, 0x01, 0, 0, 0, 10, 0, 0, 0, 0] 4 0
        [mkLoc TPMTISState.TpmTisStateReception 0xa0 0x4000088,
         mkLoc TPMTISState.TpmTisStateIdle 0x80 0,
         mkLoc TPMTISState.TpmTisStateIdle 0x80 0,
         mkLoc TPMTISState.TpmTisStateIdle 0x80 0,
         mkLoc TPMTISState.TpmTisStateIdle 0x80 0] 10,
        (if (mkLoc TPMTISState.TpmTisStateReception 0xa0 0x4000088).sts &&&
            TPM_TIS_STS_DATA_AVAILABLE ≠ 0 then
          ((min 10 10 - 4) <<< 8) |||
            (mkLoc TPMTISState.TpmTisStateReception 0xa0 0x4000088).sts
        else
          ((if ([0, 0, 0, 0] : List Nat).length = 1 ∧ 10 - 4 > 0xff then 0xff
            else 10 - 4) <<< 8) |||
            (mkLoc TPMTISState.TpmTisStateReception 0xa0 0x4000088).sts),
        tpm_tis_serialize
          (if (mkLoc TPMTISState.TpmTisStateReception 0xa0 0x4000088).sts &&&
              TPM_TIS_STS_DATA_AVAILABLE ≠ 0 then
            ((min 10 10 - 4) <<< 8) |||
              (mkLoc TPMTISState.TpmTisStateReception 0xa0 0x4000088).sts
          else
            ((if ([0, 0, 0, 0] : List Nat).length = 1 ∧ 10 - 4 > 0xff then 0xff
              else 10 - 4) <<< 8) |||
              (mkLoc TPMTISState.TpmTisStateReception 0xa0 0x4000088).sts)
          [0, 0, 0, 0])) :=
  ⟨by decide,
    c4_sts_read_value true
      (mkIsa [0x80, 0x01, 0, 0, 0, 10, 0, 0, 0, 0] 4 0
        [mkLoc TPMTISState.TpmTisStateReception 0xa0 0x4000088,
         mkLoc TPMTISState.TpmTisStateIdle 0x80 0,
         mkLoc TPMTISState.TpmTisStateIdle 0x80 0,
         mkLoc TPMTISState.TpmTisStateIdle 0x80 0,
         mkLoc TPMTISState.TpmTisStateIdle 0x80 0] 10)
      0 0 [0, 0, 0, 0] (mkLoc TPMTISState.TpmTisStateReception 0xa0 0x4000088)
      10 (by decide) (by decide) (by decide) (by decide) (by decide)
      (by decide) (by decide) (by decide)⟩

/-! ### Claim C5: `tpm_tis_sts_set` preserves `SELFTEST_DONE` and the family bits. -/

/-- C5: for every locality, prior STS value and flags argument,
`tpm_tis_sts_set` leaves the locality's STS register equal to
`(prior AND (SELFTEST_DONE OR TPM_FAMILY_MASK)) OR flags`; in particular
every `SELFTEST_DONE`/family bit that was set beforehand is still set. -/
theorem c5_sts_set_round_trip (s : TPMIsa) (L flags : Nat) (loc : TPMLocality)
    (hL : s.locs[L]? = some loc) :
    ∃ s', tpm_tis_sts_set s L flags = some s' ∧
      s'.locs[L]? = some { loc with sts :=
        (loc.sts &&& (TPM_TIS_STS_SELFTEST_DONE ||| TPM_TIS_STS_TPM_FAMILY_MASK)) ||| flags } ∧
      ∀ b, loc.sts.testBit b = true →
        (TPM_TIS_STS_SELFTEST_DONE ||| TPM_TIS_STS_TPM_FAMILY_MASK).testBit b = true →
        ((loc.sts &&& (TPM_TIS_STS_SELFTEST_DONE ||| TPM_TIS_STS_TPM_FAMILY_MASK)) |||
          flags).testBit b = true := by
  have hlen : L < s.locs.length := getElem?_lt_length hL
  refine ⟨_, locsSet_some _ hL, ?_, ?_⟩
  · simpa using List.getElem?_set_self hlen
  · intro b hb hm
    simp [Nat.testBit_lor, Nat.testBit_land, hb, hm]

/-- C5 witness: a concrete locality with `SELFTEST_DONE` and family bits set,
updated with arbitrary concrete flags. -/
theorem c5_sts_set_round_trip_witness :
    ((mkIsa [] 0 0 [mkLoc TPMTISState.TpmTisStateIdle 0x80 0x400000E4] 4096).locs[0]? =
      some (mkLoc TPMTISState.TpmTisStateIdle 0x80 0x400000E4)) ∧
    (∃ s', tpm_tis_sts_set
        (mkIsa [] 0 0 [mkLoc TPMTISState.TpmTisStateIdle 0x80 0x400000E4] 4096) 0 0x20 =
          some s' ∧
      s'.locs[0]? = some { mkLoc TPMTISState.TpmTisStateIdle 0x80 0x400000E4 with sts :=
        (((mkLoc TPMTISState.TpmTisStateIdle 0x80 0x400000E4).sts &&&
          (TPM_TIS_STS_SELFTEST_DONE ||| TPM_TIS_STS_TPM_FAMILY_MASK)) ||| 0x20) } ∧
      ∀ b, ((mkLoc TPMTISState.TpmTisStateIdle 0x80 0x400000E4).sts).testBit b = true →
        (TPM_TIS_STS_SELFTEST_DONE ||| TPM_TIS_STS_TPM_FAMILY_MASK).testBit b = true →
        ((((mkLoc TPMTISState.TpmTisStateIdle 0x80 0x400000E4).sts &&&
          (TPM_TIS_STS_SELFTEST_DONE ||| TPM_TIS_STS_TPM_FAMILY_MASK)) ||| 0x20)).testBit b =
          true) :=
  ⟨by decide, c5_sts_set_round_trip
    (mkIsa [] 0 0 [mkLoc TPMTISState.TpmTisStateIdle 0x80 0x400000E4] 4096) 0 0x20
    (mkLoc TPMTISState.TpmTisStateIdle 0x80 0x400000E4) (by decide)⟩

/-! ### Claim C1: the SEIZE arbitration protocol. -/

/-- The higher-seize scan reports `false` when no scanned locality holds a
pending seize. -/
theorem anyAccessSeize_false (s : TPMIsa) :
    ∀ ls : List Nat,
      (∀ l ∈ ls, ∃ x, s.locs[l]? = some x ∧ x.access &&& TPM_TIS_ACCESS_SEIZE = 0) →
      anyAccessSeize s ls = some false := by
  intro ls
  induction ls with
  | nil => intro _; rfl
  | cons a tl ih =>
    intro h
    obtain ⟨x, hx, hxs⟩ := h a (List.mem_cons_self a tl)
    have := ih fun l hl => h l (List.mem_cons_of_mem _ hl)
    simp [anyAccessSeize, locsGet, hx, hxs, this]

/-- The executing-locality scan reports `false` when no scanned locality is
in `Execution` state. -/
theorem anyExecution_false (s : TPMIsa) :
    ∀ ls : List Nat,
      (∀ l ∈ ls, ∃ x, s.locs[l]? = some x ∧ x.state ≠ TPMTISState.TpmTisStateExecution) →
      anyExecution s ls = some false := by
  intro ls
  induction ls with
  | nil => intro _; rfl
  | cons a tl ih =>
    intro h
    obtain ⟨x, hx, hxs⟩ := h a (List.mem_cons_self a tl)
    have := ih fun l hl => h l (List.mem_cons_of_mem _ hl)
    simp [anyExecution, locsGet, hx, hxs, this]

/-- `forLocsUpd` distributes over list append. -/
theorem forLocsUpd_append (f : TPMLocality → TPMLocality) :
    ∀ (xs ys : List Nat) (s : TPMIsa),
      forLocsUpd f s (xs ++ ys) = (forLocsUpd f s xs).bind fun s' => forLocsUpd f s' ys := by
  intro xs
  induction xs with
  | nil => intro ys s; simp [forLocsUpd]
  | cons a tl ih =>
    intro ys s
    simp only [List.cons_append, forLocsUpd, Option.bind_eq_bind]
    cases h : locsSet s a f with
    | none => simp
    | some s1 => simp [ih ys s1]

/-- Characterisation of the `for l in 0..n` update loop: it succeeds when
`n` does not exceed the table, updates exactly the first `n` records, and
leaves every other field of the device state alone. -/
theorem forLocsUpd_range_spec (f : TPMLocality → TPMLocality) :
    ∀ (n : Nat) (s : TPMIsa), n ≤ s.locs.length →
      ∃ s', forLocsUpd f s (List.range n) = some s' ∧
        s'.locs.length = s.locs.length ∧
        (∀ i, s'.locs[i]? = if i < n then (s.locs[i]?).map f else s.locs[i]?) ∧
        s'.buffer = s.buffer ∧ s'.rw_offset = s.rw_offset ∧
        s'.active_locty = s.active_locty ∧ s'.aborting_locty = s.aborting_locty ∧
        s'.next_locty = s.next_locty ∧ s'.cmd = s.cmd ∧
        s'.be_buffer_size = s.be_buffer_size ∧ s'.irq_num = s.irq_num := by
  intro n
  induction n with
  | zero =>
    intro s _
    exact ⟨s, rfl, rfl, fun i => by simp, rfl, rfl, rfl, rfl, rfl, rfl, rfl, rfl⟩
  | succ n ih =>
    intro s hn
    obtain ⟨s1, h1, hlen1, hget1, hb1, hr1, hac1, hab1, hnx1, hc1, hbb1, hi1⟩ :=
      ih s (by omega)
    have hn1 : n < s1.locs.length := by omega
    have hget1n : s1.locs[n]? = s.locs[n]? := by
      rw [hget1 n]
      simp
    have hsome : s.locs[n]? = some (s.locs[n]) := List.getElem?_eq_getElem (by omega)
    obtain ⟨s2, hset2, hget2, hother2, hlen2, hb2, hr2, hac2, hab2, hnx2, hc2, hbb2, hi2⟩ :=
      locsSet_spec f (by rw [hget1n]; exact hsome)
    refine ⟨s2, ?_, by omega, ?_, by rw [hb2, hb1], by rw [hr2, hr1],
      by rw [hac2, hac1], by rw [hab2, hab1], by rw [hnx2, hnx1], by rw [hc2, hc1],
      by rw [hbb2, hbb1], by rw [hi2, hi1]⟩
    · rw [List.range_succ, forLocsUpd_append, h1]
      simp [forLocsUpd, hset2]
    · intro i
      by_cases hi : i = n
      · subst hi
        rw [hget2, hsome]
        simp
      · rw [hother2 i hi, hget1 i]
        rcases Nat.lt_trichotomy i n with hlt | heq | hgt
        · have h2 : i < n + 1 := by omega
          simp [hlt, h2]
        · exact absurd heq hi
        · have h3 : ¬ i < n := by omega
          have h4 : ¬ i < n + 1 := by omega
          simp [h3, h4]

/-- `tpm_tis_new_active_locality` on a seize-marked switch: the old owner
loses only its `ACTIVE` flag and gains `BEEN_SEIZED`; the new owner becomes
active with its own `REQUEST_USE`/`SEIZE` bits cleared. -/
theorem new_active_seize_spec (s : TPMIsa) (a L : Nat) (la ll : TPMLocality)
    (ha : s.active_locty = a) (ha5 : a < 5) (hL5 : L < 5) (hne : a ≠ L)
    (hla : s.locs[a]? = some la) (hll : s.locs[L]? = some ll)
    (hseize : ll.access &&& TPM_TIS_ACCESS_SEIZE ≠ 0) :
    ∃ s' ints',
      tpm_tis_new_active_locality s L = some s' ∧
      s'.active_locty = L ∧
      s'.locs[a]? = some { la with access :=
        (la.access &&& ((0xff : Nat) ^^^ TPM_TIS_ACCESS_ACTIVE_LOCALITY)) |||
          TPM_TIS_ACCESS_BEEN_SEIZED } ∧
      s'.locs[L]? = some { ll with
        access := (ll.access ||| TPM_TIS_ACCESS_ACTIVE_LOCALITY) &&&
          ((0xff : Nat) ^^^ (TPM_TIS_ACCESS_REQUEST_USE ||| TPM_TIS_ACCESS_SEIZE))
        ints := ints' } ∧
      (∀ j, j ≠ a → j ≠ L → s'.locs[j]? = s.locs[j]?) ∧
      s'.locs.length = s.locs.length ∧
      s'.buffer = s.buffer ∧ s'.rw_offset = s.rw_offset ∧
      s'.aborting_locty = s.aborting_locty ∧ s'.next_locty = s.next_locty := by
  subst ha
  obtain ⟨s1, hset1, hget1, hother1, hlen1, hb1, hr1, hac1, hab1, hnx1, _, _, _⟩ :=
    locsSet_spec (fun l =>
      { l with access := l.access &&& ((0xff : Nat) ^^^ TPM_TIS_ACCESS_ACTIVE_LOCALITY) }) hla
  obtain ⟨s2, hset2, hget2, hother2, hlen2, hb2, hr2, hac2, hab2, hnx2, _, _, _⟩ :=
    locsSet_spec (fun l => { l with access := l.access ||| TPM_TIS_ACCESS_BEEN_SEIZED }) hget1
  have hget3L : ({ s2 with active_locty := L } : TPMIsa).locs[L]? = some ll := by
    show s2.locs[L]? = some ll
    rw [hother2 L (Ne.symm hne), hother1 L (Ne.symm hne)]
    exact hll
  obtain ⟨s4, hset4, hget4, hother4, hlen4, hb4, hr4, hac4, hab4, hnx4, _, _, _⟩ :=
    locsSet_spec (fun l =>
      { l with access := (l.access ||| TPM_TIS_ACCESS_ACTIVE_LOCALITY) &&&
          ((0xff : Nat) ^^^ (TPM_TIS_ACCESS_REQUEST_USE ||| TPM_TIS_ACCESS_SEIZE)) })
      hget3L
  have hact4 : s4.active_locty = L := hac4
  obtain ⟨s5, ints', hraise, hget5, hother5, hlen5, hb5, hr5, hac5, hab5, hnx5⟩ :=
    raise_irq_preserves s4 L TPM_TIS_INT_LOCALITY_CHANGED _ hget4
  refine ⟨s5, ints', ?_, by rw [hac5, hact4], ?_, hget5, ?_, ?_, ?_, ?_, ?_, ?_⟩
  · simp [tpm_tis_new_active_locality, locsGet, hll, hL5, hne, ha5, hseize,
      hset1, hac1, hset2, hset4, hact4, hraise]
  · rw [hother5 s.active_locty hne, hother4 s.active_locty hne]
    show s2.locs[s.active_locty]? = _
    rw [hget2]
  · intro j hja hjL
    rw [hother5 j hjL, hother4 j hjL]
    show s2.locs[j]? = s.locs[j]?
    rw [hother2 j hja, hother1 j hja]
  · rw [hlen5, hlen4]
    show s2.locs.length = s.locs.length
    rw [hlen2, hlen1]
  · rw [hb5, hb4]
    show s2.buffer = s.buffer
    rw [hb2, hb1]
  · rw [hr5, hr4]
    show s2.rw_offset = s.rw_offset
    rw [hr2, hr1]
  · rw [hab5, hab4]
    show s2.aborting_locty = s.aborting_locty
    rw [hab2, hab1]
  · rw [hnx5, hnx4]
    show s2.next_locty = s.next_locty
    rw [hnx2, hnx1]

/-- `tpm_tis_new_active_locality` applied to the already-active locality:
only that locality's record is touched (`ACTIVE` set, `REQUEST_USE`/`SEIZE`
cleared); no `BEEN_SEIZED` bit is set anywhere and no interrupt is raised. -/
theorem new_active_self_spec (s : TPMIsa) (a : Nat) (la : TPMLocality)
    (ha : s.active_locty = a) (ha5 : a < 5) (hla : s.locs[a]? = some la) :
    ∃ s', tpm_tis_new_active_locality s a = some s' ∧
      s'.active_locty = a ∧
      s'.locs[a]? = some { la with access :=
        (la.access ||| TPM_TIS_ACCESS_ACTIVE_LOCALITY) &&&
          ((0xff : Nat) ^^^ (TPM_TIS_ACCESS_REQUEST_USE ||| TPM_TIS_ACCESS_SEIZE)) } ∧
      (∀ j, j ≠ a → s'.locs[j]? = s.locs[j]?) ∧
      s'.locs.length = s.locs.length ∧
      s'.buffer = s.buffer ∧ s'.rw_offset = s.rw_offset ∧
      s'.aborting_locty = s.aborting_locty ∧ s'.next_locty = s.next_locty := by
  subst ha
  have hget3 : ({ s with active_locty := s.active_locty } : TPMIsa).locs[s.active_locty]? =
      some la := hla
  obtain ⟨s4, hset4, hget4, hother4, hlen4, hb4, hr4, hac4, hab4, hnx4, _, _, _⟩ :=
    locsSet_spec (fun l =>
      { l with access := (l.access ||| TPM_TIS_ACCESS_ACTIVE_LOCALITY) &&&
          ((0xff : Nat) ^^^ (TPM_TIS_ACCESS_REQUEST_USE ||| TPM_TIS_ACCESS_SEIZE)) })
      hget3
  refine ⟨s4, ?_, by rw [hac4], hget4, hother4, hlen4, hb4, hr4, hab4, hnx4⟩
  simp [tpm_tis_new_active_locality, ha5, hset4]

/-- The seize sub-block on a granted seize with no executing locality: the
requesting locality `L` becomes active immediately; the old owner keeps its
`REQUEST_USE` bit as it was, loses `ACTIVE`, and gains `BEEN_SEIZED`. -/
theorem seize_step_grant (s : TPMIsa) (a L : Nat) (la ll : TPMLocality) (snl : Int)
    (ha : s.active_locty = a) (hlen : s.locs.length = 5)
    (ha5 : a < 5) (hL5 : L < 5) (hgt : a < L)
    (hla : s.locs[a]? = some la) (hll : s.locs[L]? = some ll)
    (hnopend : ll.access &&& TPM_TIS_ACCESS_SEIZE = 0)
    (hhigher : ∀ l x, L < l → l < 4 → s.locs[l]? = some x →
      x.access &&& TPM_TIS_ACCESS_SEIZE = 0)
    (hnoexec : ∀ l x, l < 4 → s.locs[l]? = some x →
      x.state ≠ TPMTISState.TpmTisStateExecution) :
    ∃ s' la' ll',
      tpm_tis_seize_step s L snl = some (s', 0) ∧
      s'.active_locty = L ∧
      s'.locs[a]? = some la' ∧ s'.locs[L]? = some ll' ∧
      la'.access.testBit 4 = true ∧
      la'.access.testBit 5 = false ∧
      la'.access.testBit 1 = la.access.testBit 1 ∧
      ll'.access.testBit 5 = true := by
  subst ha
  have hne : s.active_locty ≠ L := by omega
  have hL1 : 1 ≤ L := by omega
  -- the wrapped u8 loop bound
  have hwrap : (L + 255) % 256 = L - 1 := by omega
  -- the higher-seize scan comes up empty
  have hscan : anyAccessSeize s
      (List.range' (L + 1) ((TPM_TIS_NUM_LOCALITIES - 1) - (L + 1))) = some false := by
    apply anyAccessSeize_false
    intro l hl
    rw [List.mem_range'_1] at hl
    have h5 : TPM_TIS_NUM_LOCALITIES = 5 := rfl
    have hl4 : l < 4 := by omega
    have hsome : s.locs[l]? = some (s.locs[l]) := List.getElem?_eq_getElem (by omega)
    exact ⟨s.locs[l], hsome, hhigher l (s.locs[l]) (by omega) hl4 hsome⟩
  -- the cancel-lower-seize loop
  obtain ⟨sA, hA, hlenA, hgetA, hbA, hrA, hacA, habA, hnxA, hcA, hbbA, hiA⟩ :=
    forLocsUpd_range_spec
      (fun l => { l with access := l.access &&& ((0xff : Nat) ^^^ TPM_TIS_ACCESS_SEIZE) })
      (L - 1) s (by omega)
  -- the old owner after the loop
  set laA : TPMLocality :=
    if s.active_locty < L - 1 then
      { la with access := la.access &&& ((0xff : Nat) ^^^ TPM_TIS_ACCESS_SEIZE) }
    else la with hlaA
  have hgetAa : sA.locs[s.active_locty]? = some laA := by
    rw [hgetA s.active_locty, hlaA]
    by_cases hc : s.active_locty < L - 1 <;> simp [hc, hla]
  have hlaA_state : laA.state = la.state := by
    rw [hlaA]
    by_cases hc : s.active_locty < L - 1 <;> simp [hc]
  have hlaA_bit1 : laA.access.testBit 1 = la.access.testBit 1 := by
    rw [hlaA]
    by_cases hc : s.active_locty < L - 1 <;>
      simp [hc, Nat.testBit_land,
        show ((0xff : Nat) ^^^ TPM_TIS_ACCESS_SEIZE).testBit 1 = true from by decide]
  have hgetAL : sA.locs[L]? = some ll := by
    rw [hgetA L]
    have : ¬ L < L - 1 := by omega
    simp [this, hll]
  -- setting the requester's SEIZE bit
  obtain ⟨sB, hsetB, hgetB, hotherB, hlenB, hbB, hrB, hacB, habB, hnxB, hcB, hbbB, hiB⟩ :=
    locsSet_spec (fun l => { l with access := l.access ||| TPM_TIS_ACCESS_SEIZE }) hgetAL
  have hgetBa : sB.locs[s.active_locty]? = some laA := by
    rw [hotherB _ hne]
    exact hgetAa
  have hacB' : sB.active_locty = s.active_locty := by rw [hacB, hacA]
  -- no executing locality in the prep-abort scan
  have hexecB : anyExecution
      ({ sB with aborting_locty := sB.active_locty, next_locty := L } : TPMIsa)
      (List.range (TPM_TIS_NUM_LOCALITIES - 1)) = some false := by
    apply anyExecution_false
    intro l hl
    have h5 : TPM_TIS_NUM_LOCALITIES = 5 := rfl
    have hl4 : l < 4 := by
      have := List.mem_range.mp hl
      omega
    have hsome : s.locs[l]? = some (s.locs[l]) := List.getElem?_eq_getElem (by omega)
    by_cases hlL : l = L
    · subst hlL
      refine ⟨{ ll with access := ll.access ||| TPM_TIS_ACCESS_SEIZE }, hgetB, ?_⟩
      show ll.state ≠ TPMTISState.TpmTisStateExecution
      exact hnoexec l ll hl4 hll
    · have hrel : sB.locs[l]? = sA.locs[l]? := hotherB l hlL
      rw [hgetA l] at hrel
      by_cases hlL1 : l < L - 1
      · refine ⟨{ s.locs[l] with
            access := (s.locs[l]).access &&& ((0xff : Nat) ^^^ TPM_TIS_ACCESS_SEIZE) },
          ?_, ?_⟩
        · show sB.locs[l]? = _
          rw [hrel]
          simp [hlL1, hsome]
        · show (s.locs[l]).state ≠ TPMTISState.TpmTisStateExecution
          exact hnoexec l (s.locs[l]) hl4 hsome
      · refine ⟨s.locs[l], ?_, hnoexec l (s.locs[l]) hl4 hsome⟩
        show sB.locs[l]? = _
        rw [hrel]
        simp [hlL1, hsome]
  -- the abort path switches the locality
  have hseizeB : ({ ll with access := ll.access ||| TPM_TIS_ACCESS_SEIZE }).access &&&
      TPM_TIS_ACCESS_SEIZE ≠ 0 := by
    show (ll.access ||| TPM_TIS_ACCESS_SEIZE) &&& TPM_TIS_ACCESS_SEIZE ≠ 0
    rw [show TPM_TIS_ACCESS_SEIZE = 2 ^ 3 from rfl, land_two_pow_ne_zero_iff]
    simp [Nat.testBit_lor, show Nat.testBit 8 3 = true from by decide]
  obtain ⟨s5, ints', hNA, hact5, hget5a, hget5L, hother5, hlen5, hb5, hr5, hab5, hnx5⟩ :=
    new_active_seize_spec
      ({ { sB with aborting_locty := sB.active_locty, next_locty := L } with rw_offset := 0 }
        : TPMIsa)
      s.active_locty L laA { ll with access := ll.access ||| TPM_TIS_ACCESS_SEIZE }
      (show sB.active_locty = s.active_locty from hacB') ha5 hL5 hne hgetBa hgetB hseizeB
  refine ⟨{ s5 with next_locty := TPM_TIS_NO_LOCALITY, aborting_locty := TPM_TIS_NO_LOCALITY },
    { laA with access :=
        (laA.access &&& ((0xff : Nat) ^^^ TPM_TIS_ACCESS_ACTIVE_LOCALITY)) |||
          TPM_TIS_ACCESS_BEEN_SEIZED },
    { ll with
      access := ((ll.access ||| TPM_TIS_ACCESS_SEIZE) ||| TPM_TIS_ACCESS_ACTIVE_LOCALITY) &&&
        ((0xff : Nat) ^^^ (TPM_TIS_ACCESS_REQUEST_USE ||| TPM_TIS_ACCESS_SEIZE))
      ints := ints' },
    ?_, ?_, ?_, ?_, ?_, ?_, ?_, ?_⟩
  · -- the full evaluation of the seize block
    simp only [tpm_tis_seize_step, Option.bind_eq_bind]
    rw [if_pos (Or.inl ⟨ha5, hgt⟩)]
    simp only [locsGet, hll, Option.some_bind]
    rw [if_neg (by simp [hnopend])]
    simp only [hscan, Option.some_bind]
    rw [if_neg (by simp)]
    rw [hwrap]
    simp only [hA, Option.some_bind, hsetB]
    simp only [tpm_tis_prep_abort, Option.bind_eq_bind, Option.some_bind]
    rw [if_neg (by simp [hL5])]
    simp only [Option.some_bind, hexecB]
    rw [if_neg (by simp)]
    simp only [tpm_tis_abort, Option.bind_eq_bind]
    rw [if_neg (show ¬ (sB.active_locty = L) from by rw [hacB']; exact hne)]
    simp only [Option.some_bind]
    rw [hNA]
    simp only [Option.some_bind]
  · show s5.active_locty = L
    exact hact5
  · show s5.locs[s.active_locty]? = _
    exact hget5a
  · show s5.locs[L]? = _
    exact hget5L
  · simp [Nat.testBit_lor, show Nat.testBit TPM_TIS_ACCESS_BEEN_SEIZED 4 = true from by decide]
  · simp [Nat.testBit_lor, Nat.testBit_land,
      show Nat.testBit TPM_TIS_ACCESS_BEEN_SEIZED 5 = false from by decide,
      show ((0xff : Nat) ^^^ TPM_TIS_ACCESS_ACTIVE_LOCALITY).testBit 5 = false from by decide]
  · simp [Nat.testBit_lor, Nat.testBit_land, hlaA_bit1,
      show Nat.testBit TPM_TIS_ACCESS_BEEN_SEIZED 1 = false from by decide,
      show ((0xff : Nat) ^^^ TPM_TIS_ACCESS_ACTIVE_LOCALITY).testBit 1 = true from by decide]
  · simp [Nat.testBit_lor, Nat.testBit_land,
      show Nat.testBit TPM_TIS_ACCESS_ACTIVE_LOCALITY 5 = true from by decide,
      show ((0xff : Nat) ^^^ (TPM_TIS_ACCESS_REQUEST_USE ||| TPM_TIS_ACCESS_SEIZE)).testBit 5 =
        true from by decide]

/-- The seize sub-block is a no-op when a locality is active and the
requester does not outrank it. -/
theorem seize_step_denied (s : TPMIsa) (L : Nat) (snl : Int)
    (ha5 : s.active_locty < 5) (hle : L ≤ s.active_locty) :
    tpm_tis_seize_step s L snl = some (s, snl) := by
  simp only [tpm_tis_seize_step]
  rw [if_neg (by omega)]

/-- Bit 4 (`BEEN_SEIZED`) survives `tpm_tis_new_active_locality`'s access
update of the locality being (re)activated. -/
theorem access_self_bit4 (x : Nat) :
    ((x ||| TPM_TIS_ACCESS_ACTIVE_LOCALITY) &&&
      ((0xff : Nat) ^^^ (TPM_TIS_ACCESS_REQUEST_USE ||| TPM_TIS_ACCESS_SEIZE))).testBit 4 =
    x.testBit 4 := by
  rw [Nat.testBit_land, Nat.testBit_lor,
    show Nat.testBit TPM_TIS_ACCESS_ACTIVE_LOCALITY 4 = false from by decide,
    show Nat.testBit ((0xff : Nat) ^^^
      (TPM_TIS_ACCESS_REQUEST_USE ||| TPM_TIS_ACCESS_SEIZE)) 4 = true from by decide]
  simp

/-- Clearing `BEEN_SEIZED` (with the u32 complement truncated to a byte)
indeed leaves bit 4 clear. -/
theorem clear_bs_bit4 (x : Nat) :
    (x &&& (((0xffffffff : Nat) ^^^ TPM_TIS_ACCESS_BEEN_SEIZED) &&& 0xff)).testBit 4 =
    false := by
  rw [Nat.testBit_land,
    show Nat.testBit (((0xffffffff : Nat) ^^^ TPM_TIS_ACCESS_BEEN_SEIZED) &&& 0xff) 4 =
      false from by decide]
  simp

/-- C1: an ACCESS write carrying the SEIZE bit.  The seize is granted only
when no locality is active or the writer outranks the active locality; on a
granted seize (immediate, i.e. no locality is mid-execution) the old owner's
`BEEN_SEIZED` bit is set, its `ACTIVE` bit is cleared, its `REQUEST_USE`
bit is clear (it is untouched by the seize mask and is clear in every
reachable state while a locality owns the interface), and the writer
becomes the active locality.  When the writer does not outrank the active
locality, the active locality is unchanged and no `BEEN_SEIZED` bit is
newly set anywhere. -/
theorem c1_access_seize_write (s : TPMIsa) (a L val : Nat) (la ll : TPMLocality)
    (ha : s.active_locty = a) (hlen : s.locs.length = 5)
    (ha5 : a < 5) (hL5 : L < 5)
    (hseizebit : val &&& TPM_TIS_ACCESS_SEIZE ≠ 0)
    (hla : s.locs[a]? = some la) (hll : s.locs[L]? = some ll) :
    ((a < L ∧
      ll.access &&& TPM_TIS_ACCESS_SEIZE = 0 ∧
      (∀ l x, L < l → l < 4 → s.locs[l]? = some x →
        x.access &&& TPM_TIS_ACCESS_SEIZE = 0) ∧
      (∀ l x, l < 4 → s.locs[l]? = some x →
        x.state ≠ TPMTISState.TpmTisStateExecution) ∧
      la.access.testBit 1 = false) →
      ∃ s' la' ll', tpm_tis_access_write s L val = some s' ∧
        s'.active_locty = L ∧
        s'.locs[a]? = some la' ∧ s'.locs[L]? = some ll' ∧
        la'.access.testBit 4 = true ∧
        la'.access.testBit 5 = false ∧
        la'.access.testBit 1 = false ∧
        ll'.access.testBit 5 = true) ∧
    (L ≤ a →
      ∃ s', tpm_tis_access_write s L val = some s' ∧
        s'.active_locty = a ∧
        (∀ j x x', j < 5 → s.locs[j]? = some x → s'.locs[j]? = some x' →
          x'.access.testBit 4 = true → x.access.testBit 4 = true)) := by
  subst ha
  have hmaskA : (val &&& ((0xff : Nat) ^^^
      (TPM_TIS_ACCESS_REQUEST_USE ||| TPM_TIS_ACCESS_ACTIVE_LOCALITY))) &&&
      TPM_TIS_ACCESS_ACTIVE_LOCALITY = 0 := by
    rw [Nat.land_assoc,
      show ((0xff : Nat) ^^^ (TPM_TIS_ACCESS_REQUEST_USE ||| TPM_TIS_ACCESS_ACTIVE_LOCALITY)) &&&
        TPM_TIS_ACCESS_ACTIVE_LOCALITY = 0 from by decide,
      Nat.and_zero]
  have hmaskR : (val &&& ((0xff : Nat) ^^^
      (TPM_TIS_ACCESS_REQUEST_USE ||| TPM_TIS_ACCESS_ACTIVE_LOCALITY))) &&&
      TPM_TIS_ACCESS_REQUEST_USE = 0 := by
    rw [Nat.land_assoc,
      show ((0xff : Nat) ^^^ (TPM_TIS_ACCESS_REQUEST_USE ||| TPM_TIS_ACCESS_ACTIVE_LOCALITY)) &&&
        TPM_TIS_ACCESS_REQUEST_USE = 0 from by decide,
      Nat.and_zero]
  have hmaskS : (val &&& ((0xff : Nat) ^^^
      (TPM_TIS_ACCESS_REQUEST_USE ||| TPM_TIS_ACCESS_ACTIVE_LOCALITY))) &&&
      TPM_TIS_ACCESS_SEIZE = val &&& TPM_TIS_ACCESS_SEIZE := by
    rw [Nat.land_assoc,
      show ((0xff : Nat) ^^^ (TPM_TIS_ACCESS_REQUEST_USE ||| TPM_TIS_ACCESS_ACTIVE_LOCALITY)) &&&
        TPM_TIS_ACCESS_SEIZE = TPM_TIS_ACCESS_SEIZE from by decide]
  constructor
  · -- grant direction
    rintro ⟨hgt, hP1, hP2, hP3, hP4⟩
    have hne : s.active_locty ≠ L := by omega
    by_cases hbs : (val &&& ((0xff : Nat) ^^^
        (TPM_TIS_ACCESS_REQUEST_USE ||| TPM_TIS_ACCESS_ACTIVE_LOCALITY))) &&&
        TPM_TIS_ACCESS_BEEN_SEIZED ≠ 0
    · -- the write also clears the writer's BEEN_SEIZED bit first
      obtain ⟨sb, hsetb, hgetb, hotherb, hlenb, hbb, hrb, hacb, habb, hnxb, hcb, hbbb, hib⟩ :=
        locsSet_spec (fun l =>
          { l with access :=
              l.access &&& (((0xffffffff : Nat) ^^^ TPM_TIS_ACCESS_BEEN_SEIZED) &&& 0xff) }) hll
      have hacb' : sb.active_locty = s.active_locty := hacb
      have hgba : sb.locs[s.active_locty]? = some la := by
        rw [hotherb _ hne]
        exact hla
      have hnopendb : ({ ll with access :=
          ll.access &&& (((0xffffffff : Nat) ^^^ TPM_TIS_ACCESS_BEEN_SEIZED) &&& 0xff)
        } : TPMLocality).access &&& TPM_TIS_ACCESS_SEIZE = 0 := by
        show (ll.access &&& (((0xffffffff : Nat) ^^^ TPM_TIS_ACCESS_BEEN_SEIZED) &&& 0xff)) &&&
          TPM_TIS_ACCESS_SEIZE = 0
        rw [Nat.land_assoc,
          show (((0xffffffff : Nat) ^^^ TPM_TIS_ACCESS_BEEN_SEIZED) &&& 0xff) &&&
            TPM_TIS_ACCESS_SEIZE = TPM_TIS_ACCESS_SEIZE from by decide]
        exact hP1
      obtain ⟨s', la', ll', hstep, hact', hgeta', hgetL', hb4, hb5', hb1, hllb5⟩ :=
        seize_step_grant sb s.active_locty L la
          { ll with access :=
              ll.access &&& (((0xffffffff : Nat) ^^^ TPM_TIS_ACCESS_BEEN_SEIZED) &&& 0xff) }
          (-1) hacb' (hlenb.trans hlen) ha5 hL5 hgt hgba hgetb hnopendb
          (by
            intro l x hLl hl4 hx
            have : sb.locs[l]? = s.locs[l]? := hotherb l (by omega)
            rw [this] at hx
            exact hP2 l x hLl hl4 hx)
          (by
            intro l x hl4 hx
            by_cases hlL : l = L
            · subst hlL
              rw [hgetb] at hx
              cases hx
              show ll.state ≠ TPMTISState.TpmTisStateExecution
              exact hP3 l ll hl4 hll
            · rw [hotherb l hlL] at hx
              exact hP3 l x hl4 hx)
      refine ⟨s', la', ll', ?_, hact', hgeta', hgetL', hb4, hb5', by rw [hb1]; exact hP4, hllb5⟩
      simp only [tpm_tis_access_write, Option.bind_eq_bind]
      rw [if_pos hseizebit]
      rw [if_neg (by simp [hmaskA])]
      simp only [Option.some_bind]
      rw [if_pos hbs]
      simp only [hsetb, Option.some_bind]
      rw [if_pos (by rw [hmaskS]; exact hseizebit)]
      simp only [hstep, Option.some_bind]
      rw [if_neg (by simp [hmaskR])]
      rw [if_neg (by norm_num)]
    · -- no BEEN_SEIZED clear: the seize block acts on the original state
      obtain ⟨s', la', ll', hstep, hact', hgeta', hgetL', hb4, hb5', hb1, hllb5⟩ :=
        seize_step_grant s s.active_locty L la ll (-1) rfl hlen ha5 hL5 hgt hla hll hP1
          (fun l x hLl hl4 hx => hP2 l x hLl hl4 hx)
          (fun l x hl4 hx => hP3 l x hl4 hx)
      refine ⟨s', la', ll', ?_, hact', hgeta', hgetL', hb4, hb5', by rw [hb1]; exact hP4, hllb5⟩
      simp only [tpm_tis_access_write, Option.bind_eq_bind]
      rw [if_pos hseizebit]
      rw [if_neg (by simp [hmaskA])]
      simp only [Option.some_bind]
      rw [if_neg hbs]
      rw [if_pos (by rw [hmaskS]; exact hseizebit)]
      simp only [hstep, Option.some_bind]
      rw [if_neg (by simp [hmaskR])]
      rw [if_neg (by norm_num)]
  · -- denial direction
    intro hle
    by_cases hbs : (val &&& ((0xff : Nat) ^^^
        (TPM_TIS_ACCESS_REQUEST_USE ||| TPM_TIS_ACCESS_ACTIVE_LOCALITY))) &&&
        TPM_TIS_ACCESS_BEEN_SEIZED ≠ 0
    · obtain ⟨sb, hsetb, hgetb, hotherb, hlenb, hbb, hrb, hacb, habb, hnxb, hcb, hbbb, hib⟩ :=
        locsSet_spec (fun l =>
          { l with access :=
              l.access &&& (((0xffffffff : Nat) ^^^ TPM_TIS_ACCESS_BEEN_SEIZED) &&& 0xff) }) hll
      have hacb' : sb.active_locty = s.active_locty := hacb
      have hdenied : tpm_tis_seize_step sb L (-1) = some (sb, -1) :=
        seize_step_denied sb L (-1) (by rw [hacb']; omega) (by rw [hacb']; omega)
      by_cases haL : s.active_locty = L
      · -- the writer is the active locality itself: its BEEN_SEIZED bit got cleared
        have hgba : sb.locs[s.active_locty]? = some
            { ll with access :=
                ll.access &&& (((0xffffffff : Nat) ^^^ TPM_TIS_ACCESS_BEEN_SEIZED) &&& 0xff) } := by
          rw [haL]
          exact hgetb
        obtain ⟨s', hNA, hact', hgeta', hother', hlen', hb', hr', hab', hnx'⟩ :=
          new_active_self_spec sb s.active_locty _ hacb' ha5 hgba
        refine ⟨s', ?_, by rw [hact'], ?_⟩
        · simp only [tpm_tis_access_write, Option.bind_eq_bind]
          rw [if_pos hseizebit]
          rw [if_neg (by simp [hmaskA])]
          simp only [Option.some_bind]
          rw [if_pos hbs]
          simp only [hsetb, Option.some_bind]
          rw [if_pos (by rw [hmaskS]; exact hseizebit)]
          simp only [hdenied, Option.some_bind]
          rw [if_neg (by simp [hmaskR])]
          rw [if_pos (by norm_num)]
          exact hNA
        · intro j x x' hj5 hx hx' hbit
          by_cases hja : j = s.active_locty
          · subst hja
            have hxx : x' = _ := Option.some.inj (hx'.symm.trans hgeta')
            subst hxx
            have hbit2 : (((ll.access &&&
                (((0xffffffff : Nat) ^^^ TPM_TIS_ACCESS_BEEN_SEIZED) &&& 0xff)) |||
                TPM_TIS_ACCESS_ACTIVE_LOCALITY) &&&
                ((0xff : Nat) ^^^
                  (TPM_TIS_ACCESS_REQUEST_USE ||| TPM_TIS_ACCESS_SEIZE))).testBit 4 =
                true := hbit
            rw [access_self_bit4, clear_bs_bit4] at hbit2
            exact Bool.noConfusion hbit2
          · have hju : s'.locs[j]? = s.locs[j]? := by
              rw [hother' j hja, hotherb j (by rw [← haL]; exact hja)]
            rw [hju, hx] at hx'
            rw [Option.some.inj hx']
            exact hbit
      · -- the writer is not the active locality; the owner's record is untouched
        have hgba : sb.locs[s.active_locty]? = some la := by
          rw [hotherb _ haL]
          exact hla
        obtain ⟨s', hNA, hact', hgeta', hother', hlen', hb', hr', hab', hnx'⟩ :=
          new_active_self_spec sb s.active_locty la hacb' ha5 hgba
        refine ⟨s', ?_, by rw [hact'], ?_⟩
        · simp only [tpm_tis_access_write, Option.bind_eq_bind]
          rw [if_pos hseizebit]
          rw [if_neg (by simp [hmaskA])]
          simp only [Option.some_bind]
          rw [if_pos hbs]
          simp only [hsetb, Option.some_bind]
          rw [if_pos (by rw [hmaskS]; exact hseizebit)]
          simp only [hdenied, Option.some_bind]
          rw [if_neg (by simp [hmaskR])]
          rw [if_pos (by norm_num)]
          exact hNA
        · intro j x x' hj5 hx hx' hbit
          by_cases hja : j = s.active_locty
          · subst hja
            have hxla : x = la := Option.some.inj (hx.symm.trans hla)
            have hxx : x' = _ := Option.some.inj (hx'.symm.trans hgeta')
            subst hxx
            have hbit2 : ((la.access ||| TPM_TIS_ACCESS_ACTIVE_LOCALITY) &&&
                ((0xff : Nat) ^^^
                  (TPM_TIS_ACCESS_REQUEST_USE ||| TPM_TIS_ACCESS_SEIZE))).testBit 4 =
                true := hbit
            rw [access_self_bit4] at hbit2
            rw [hxla]
            exact hbit2
          · have hju : s'.locs[j]? = sb.locs[j]? := hother' j hja
            by_cases hjL : j = L
            · subst hjL
              have hxx : x' = { ll with access :=
                  ll.access &&&
                    (((0xffffffff : Nat) ^^^ TPM_TIS_ACCESS_BEEN_SEIZED) &&& 0xff) } :=
                Option.some.inj (hx'.symm.trans (hju.trans hgetb))
              subst hxx
              have hbit2 : (ll.access &&&
                  (((0xffffffff : Nat) ^^^ TPM_TIS_ACCESS_BEEN_SEIZED) &&& 0xff)).testBit 4 =
                  true := hbit
              rw [clear_bs_bit4] at hbit2
              exact Bool.noConfusion hbit2
            · have heq : s'.locs[j]? = s.locs[j]? := by rw [hju, hotherb j hjL]
              rw [heq, hx] at hx'
              rw [Option.some.inj hx']
              exact hbit
    · -- no BEEN_SEIZED clear: the write leaves the locality table alone
      have hdenied : tpm_tis_seize_step s L (-1) = some (s, -1) :=
        seize_step_denied s L (-1) (by omega) (by omega)
      obtain ⟨s', hNA, hact', hgeta', hother', hlen', hb', hr', hab', hnx'⟩ :=
        new_active_self_spec s s.active_locty la rfl ha5 hla
      refine ⟨s', ?_, by rw [hact'], ?_⟩
      · simp only [tpm_tis_access_write, Option.bind_eq_bind]
        rw [if_pos hseizebit]
        rw [if_neg (by simp [hmaskA])]
        simp only [Option.some_bind]
        rw [if_neg hbs]
        rw [if_pos (by rw [hmaskS]; exact hseizebit)]
        simp only [hdenied, Option.some_bind]
        rw [if_neg (by simp [hmaskR])]
        rw [if_pos (by norm_num)]
        exact hNA
      · intro j x x' hj5 hx hx' hbit
        by_cases hja : j = s.active_locty
        · subst hja
          have hxla : x = la := Option.some.inj (hx.symm.trans hla)
          have hxx : x' = _ := Option.some.inj (hx'.symm.trans hgeta')
          subst hxx
          have hbit2 : ((la.access ||| TPM_TIS_ACCESS_ACTIVE_LOCALITY) &&&
              ((0xff : Nat) ^^^
                (TPM_TIS_ACCESS_REQUEST_USE ||| TPM_TIS_ACCESS_SEIZE))).testBit 4 =
              true := hbit
          rw [access_self_bit4] at hbit2
          rw [hxla]
          exact hbit2
        · have heq : s'.locs[j]? = s.locs[j]? := hother' j hja
          rw [heq, hx] at hx'
          rw [Option.some.inj hx']
          exact hbit

/-- Concrete run of the C1 theorem: locality 1 seizes from active locality 0
(owner access 0xa0 = valid|active, everyone else 0x80), and the grant goes
through with the expected bit changes. -/
theorem c1_access_seize_write_witness :
    ∃ s' la' ll',
      tpm_tis_access_write
        (mkIsa [] 0 0
          [mkLoc TPMTISState.TpmTisStateIdle 0xa0 0,
           mkLoc TPMTISState.TpmTisStateIdle 0x80 0,
           mkLoc TPMTISState.TpmTisStateIdle 0x80 0,
           mkLoc TPMTISState.TpmTisStateIdle 0x80 0,
           mkLoc TPMTISState.TpmTisStateIdle 0x80 0] 4096)
        1 TPM_TIS_ACCESS_SEIZE = some s' ∧
      s'.active_locty = 1 ∧
      s'.locs[0]? = some la' ∧ s'.locs[1]? = some ll' ∧
      la'.access.testBit 4 = true ∧
      la'.access.testBit 5 = false ∧
      la'.access.testBit 1 = false ∧
      ll'.access.testBit 5 = true :=
  (c1_access_seize_write
      (mkIsa [] 0 0
        [mkLoc TPMTISState.TpmTisStateIdle 0xa0 0,
         mkLoc TPMTISState.TpmTisStateIdle 0x80 0,
         mkLoc TPMTISState.TpmTisStateIdle 0x80 0,
         mkLoc TPMTISState.TpmTisStateIdle 0x80 0,
         mkLoc TPMTISState.TpmTisStateIdle 0x80 0] 4096)
      0 1 TPM_TIS_ACCESS_SEIZE
      (mkLoc TPMTISState.TpmTisStateIdle 0xa0 0)
      (mkLoc TPMTISState.TpmTisStateIdle 0x80 0)
      rfl rfl (by decide) (by decide) (by decide) rfl rfl).1
    ⟨by decide, by decide,
     by
       intro l x h1 h4 hx
       have hl : l = 2 ∨ l = 3 := by omega
       rcases hl with rfl | rfl
       · rw [show (mkIsa [] 0 0
             [mkLoc TPMTISState.TpmTisStateIdle 0xa0 0,
              mkLoc TPMTISState.TpmTisStateIdle 0x80 0,
              mkLoc TPMTISState.TpmTisStateIdle 0x80 0,
              mkLoc TPMTISState.TpmTisStateIdle 0x80 0,
              mkLoc TPMTISState.TpmTisStateIdle 0x80 0] 4096).locs[2]? =
             some (mkLoc TPMTISState.TpmTisStateIdle 0x80 0) from rfl] at hx
         rw [← Option.some.inj hx]
         decide
       · rw [show (mkIsa [] 0 0
             [mkLoc TPMTISState.TpmTisStateIdle 0xa0 0,
              mkLoc TPMTISState.TpmTisStateIdle 0x80 0,
              mkLoc TPMTISState.TpmTisStateIdle 0x80 0,
              mkLoc TPMTISState.TpmTisStateIdle 0x80 0,
              mkLoc TPMTISState.TpmTisStateIdle 0x80 0] 4096).locs[3]? =
             some (mkLoc TPMTISState.TpmTisStateIdle 0x80 0) from rfl] at hx
         rw [← Option.some.inj hx]
         decide,
     by
       intro l x h4 hx
       have hl : l = 0 ∨ l = 1 ∨ l = 2 ∨ l = 3 := by omega
       have hgen : ∀ m : Nat, m < 4 →
           (mkIsa [] 0 0
             [mkLoc TPMTISState.TpmTisStateIdle 0xa0 0,
              mkLoc TPMTISState.TpmTisStateIdle 0x80 0,
              mkLoc TPMTISState.TpmTisStateIdle 0x80 0,
              mkLoc TPMTISState.TpmTisStateIdle 0x80 0,
              mkLoc TPMTISState.TpmTisStateIdle 0x80 0] 4096).locs[m]? = some x →
           x.state ≠ TPMTISState.TpmTisStateExecution := by
         intro m hm hmx
         have hm4 : m = 0 ∨ m = 1 ∨ m = 2 ∨ m = 3 := by omega
         rcases hm4 with rfl | rfl | rfl | rfl
         · rw [show (mkIsa [] 0 0
               [mkLoc TPMTISState.TpmTisStateIdle 0xa0 0,
                mkLoc TPMTISState.TpmTisStateIdle 0x80 0,
                mkLoc TPMTISState.TpmTisStateIdle 0x80 0,
                mkLoc TPMTISState.TpmTisStateIdle 0x80 0,
                mkLoc TPMTISState.TpmTisStateIdle 0x80 0] 4096).locs[0]? =
               some (mkLoc TPMTISState.TpmTisStateIdle 0xa0 0) from rfl] at hmx
           rw [← Option.some.inj hmx]
           decide
         · rw [show (mkIsa [] 0 0
               [mkLoc TPMTISState.TpmTisStateIdle 0xa0 0,
                mkLoc TPMTISState.TpmTisStateIdle 0x80 0,
                mkLoc TPMTISState.TpmTisStateIdle 0x80 0,
                mkLoc TPMTISState.TpmTisStateIdle 0x80 0,
                mkLoc TPMTISState.TpmTisStateIdle 0x80 0] 4096).locs[1]? =
               some (mkLoc TPMTISState.TpmTisStateIdle 0x80 0) from rfl] at hmx
           rw [← Option.some.inj hmx]
           decide
         · rw [show (mkIsa [] 0 0
               [mkLoc TPMTISState.TpmTisStateIdle 0xa0 0,
                mkLoc TPMTISState.TpmTisStateIdle 0x80 0,
                mkLoc TPMTISState.TpmTisStateIdle 0x80 0,
                mkLoc TPMTISState.TpmTisStateIdle 0x80 0,
                mkLoc TPMTISState.TpmTisStateIdle 0x80 0] 4096).locs[2]? =
               some (mkLoc TPMTISState.TpmTisStateIdle 0x80 0) from rfl] at hmx
           rw [← Option.some.inj hmx]
           decide
         · rw [show (mkIsa [] 0 0
               [mkLoc TPMTISState.TpmTisStateIdle 0xa0 0,
                mkLoc TPMTISState.TpmTisStateIdle 0x80 0,
                mkLoc TPMTISState.TpmTisStateIdle 0x80 0,
                mkLoc TPMTISState.TpmTisStateIdle 0x80 0,
                mkLoc TPMTISState.TpmTisStateIdle 0x80 0] 4096).locs[3]? =
               some (mkLoc TPMTISState.TpmTisStateIdle 0x80 0) from rfl] at hmx
           rw [← Option.some.inj hmx]
           decide
       exact hgen l h4 hx,
     by decide⟩

/-! ### Claim C2: releasing the active locality with a pending requester. -/

/-- C2: the claim states that an `ACTIVE_LOCALITY` write by the active
locality hands the locality over to the highest pending requester (scanning
4 down to 0).  On the code, with locality 0 active and locality 1 holding a
pending `REQUEST_USE`, the write leaves the device state completely
unchanged: the reverse scan (which also covers only localities 3..0) only
sets `set_new_locty = 0`, and the hand-off that the source marks with a TODO
comment is never performed, so the pending requester never becomes active. -/
theorem c2_release_with_pending_requester_is_noop :
    tpm_handle_write 0
      (mkIsa [] 0 0
        [mkLoc TPMTISState.TpmTisStateIdle 0xa0 0x4000000,
         mkLoc TPMTISState.TpmTisStateIdle 0x82 0x4000000,
         mkLoc TPMTISState.TpmTisStateIdle 0x80 0x4000000,
         mkLoc TPMTISState.TpmTisStateIdle 0x80 0x4000000,
         mkLoc TPMTISState.TpmTisStateIdle 0x80 0x4000000] 4096)
      0 TPM_TIS_REG_ACCESS TPM_TIS_ACCESS_ACTIVE_LOCALITY 0xff 1 =
    some (mkIsa [] 0 0
        [mkLoc TPMTISState.TpmTisStateIdle 0xa0 0x4000000,
         mkLoc TPMTISState.TpmTisStateIdle 0x82 0x4000000,
         mkLoc TPMTISState.TpmTisStateIdle 0x80 0x4000000,
         mkLoc TPMTISState.TpmTisStateIdle 0x80 0x4000000,
         mkLoc TPMTISState.TpmTisStateIdle 0x80 0x4000000] 4096, none) := by
  decide

/-! ### Claim C9: totality of the write handler. -/

/-- C9: the claim asserts the write handler never underflows nor indexes out
of range for in-map writes by a valid locality.  A `SEIZE` write by locality
0 from the reset state refutes it: the cancel-lower-seize loop bound is the
`u8` value `0 - 1` (debug builds panic on the subtraction; release builds
wrap it to 255 and index the 5-entry locality table out of bounds), so the
embedded handler aborts (`none`). -/
theorem c9_seize_locality0_panics :
    tpm_handle_write 0 (tpm_isa_new 4096 5) 0 TPM_TIS_REG_ACCESS
      TPM_TIS_ACCESS_SEIZE 0xff 1 = none := by
  decide

/-! ### Claim C6: `deliver_request` is busy-safe. -/

/-- C6: whenever a command descriptor is already outstanding, any further
`deliver_request` call fails with `-1` and returns the backend state
unchanged, for every channel-oracle behaviour and every new descriptor. -/
theorem c6_deliver_request_busy (o : Vtpm.TPMChannelOracle) (s : Vtpm.TPMEmulator)
    (c0 c : TPMBackendCmd) (h : s.cmd = some c0) :
    Vtpm.deliver_request o s c = some (s, -1) := by
  simp [Vtpm.deliver_request, h]

/-- C6 witness: a concrete busy backend rejects a second descriptor
unchanged. -/
theorem c6_deliver_request_busy_witness :
    ((Vtpm.mkEmu (some (Vtpm.mkCmd 0 [1] 1 [0] false)) 0).cmd =
      some (Vtpm.mkCmd 0 [1] 1 [0] false)) ∧
    Vtpm.deliver_request (Vtpm.mkOracle 0 [])
      (Vtpm.mkEmu (some (Vtpm.mkCmd 0 [1] 1 [0] false)) 0)
      (Vtpm.mkCmd 2 [] 0 [] false) =
      some (Vtpm.mkEmu (some (Vtpm.mkCmd 0 [1] 1 [0] false)) 0, -1) :=
  ⟨by decide, c6_deliver_request_busy (Vtpm.mkOracle 0 [])
    (Vtpm.mkEmu (some (Vtpm.mkCmd 0 [1] 1 [0] false)) 0)
    (Vtpm.mkCmd 0 [1] 1 [0] false) (Vtpm.mkCmd 2 [] 0 [] false) (by decide)⟩


end TpmTis
